import Mathlib

/-!
Verification development for the devos-mvp daemon (Python sources under
src/devos-mvp/src).  The Python modules are shallowly embedded: each
Python function is translated into an executable Lean definition, with
external library calls (hashlib, the OS subprocess layer, json.loads,
the Bedrock client) modelled as explicit oracle parameters.  Strings are
modelled as Lean strings; Python character-level operations work on
`List Char`.
-/

namespace DevOS

/-- Python str whitespace set used by strip()/split(): space, tab,
newline, carriage return, vertical tab, form feed. -/
def pyIsSpace (c : Char) : Bool :=
  c = ' ' || c = '\t' || c = '\n' || c = '\r' || c = '\x0b' || c = '\x0c'

/-- Python str.strip on a character list: drop whitespace at both ends. -/
def trimL (l : List Char) : List Char :=
  ((l.dropWhile pyIsSpace).reverse.dropWhile pyIsSpace).reverse

/-- Python str.strip. -/
def pyStrip (s : String) : String := String.mk (trimL s.toList)

/-- Python str.lower on a character list (ASCII commands only). -/
def lowerL (l : List Char) : List Char := l.map Char.toLower

/-- Python str.lower. -/
def pyLower (s : String) : String := String.mk (lowerL s.toList)

/-- Python str.split() (no argument): split on whitespace runs, dropping
empty fields.  The accumulator holds the current word reversed. -/
def wordsAux : List Char → List Char → List (List Char)
  | [], acc => if acc.isEmpty then [] else [acc.reverse]
  | c :: rest, acc =>
    if pyIsSpace c then
      if acc.isEmpty then wordsAux rest [] else acc.reverse :: wordsAux rest []
    else wordsAux rest (c :: acc)

/-- Python str.split() returning strings. -/
def pySplitWs (s : String) : List String := (wordsAux s.toList []).map String.mk

/-- Python s.startswith(pre). -/
def pyStartsWith (s pre : String) : Bool := pre.toList.isPrefixOf s.toList

/-!
A minimal regular-expression engine covering exactly the constructs used
by the repository's patterns: literal characters, one-character classes
(for `\s` and `[a-z]`), and starred classes (for `\s*`, `\s+` as class
plus star, and `.*`).  `rmatch` matches a pattern against a prefix of
the subject; `rsearch` is Python re.search (match at any position).
-/

inductive RTok where
  | lit (c : Char)
  | cls (p : Char → Bool)
  | star (p : Char → Bool)

/-- Backtracking helper for a starred class: try the continuation `k`
at every suffix reachable by consuming characters satisfying `p`. -/
def starMatch (p : Char → Bool) (k : List Char → Bool) : List Char → Bool
  | [] => k []
  | x :: xs => k (x :: xs) || (p x && starMatch p k xs)

def rmatch : List RTok → List Char → Bool
  | [], _ => true
  | .lit c :: ts, xs =>
    match xs with
    | [] => false
    | x :: xs2 => x = c && rmatch ts xs2
  | .cls p :: ts, xs =>
    match xs with
    | [] => false
    | x :: xs2 => p x && rmatch ts xs2
  | .star p :: ts, xs => starMatch p (fun ys => rmatch ts ys) xs

def rsearch (ts : List RTok) : List Char → Bool
  | [] => rmatch ts []
  | x :: xs => rmatch ts (x :: xs) || rsearch ts xs

/-- Literal-only pattern for a string. -/
def litToks (s : String) : List RTok := s.toList.map RTok.lit

/-- Substring occurrence (Python `needle in hay` on str). -/
def containsSubL (needle hay : List Char) : Bool :=
  rsearch (needle.map RTok.lit) hay

/-- Python `needle in hay` for strings. -/
def pyContains (hay needle : String) : Bool := containsSubL needle.toList hay.toList

/-- Regex fragment `\s+`. -/
def ws1 : List RTok := [.cls pyIsSpace, .star pyIsSpace]

/-- Regex fragment `\s*`. -/
def ws0 : List RTok := [.star pyIsSpace]

/-- Regex fragment `.*` (Python `.` does not match a newline). -/
def dotStar : List RTok := [.star (fun c => c != '\n')]

/-- Lowercase-letter class `[a-z]` (subjects are lowercased before
matching, which also realises re.IGNORECASE for this class). -/
def azCls : RTok := .cls (fun c => 'a' ≤ c && c ≤ 'z')

/-- re.search(pattern, s, re.IGNORECASE): all repository patterns are
lowercase, so case-insensitive search is search over the lowercased
subject. -/
def reSearchIC (pat : List RTok) (s : String) : Bool := rsearch pat (lowerL s.toList)

/-- re.search(pattern, s) without flags (case-sensitive). -/
def reSearchCS (pat : List RTok) (s : String) : Bool := rsearch pat s.toList

/-- Association-list model of a Python dict (first binding wins). -/
def lookupA {α : Type} : List (String × α) → String → Option α
  | [], _ => none
  | (k, v) :: t, key => if k = key then some v else lookupA t key

/-- Python dict assignment `d[key] = v` on the shadowing representation. -/
def setA {α : Type} (key : String) (v : α) (l : List (String × α)) :
    List (String × α) := (key, v) :: l

/-- Characters of the subject before the first occurrence of `sep`
(Python s.split(sep)[0]); the whole subject if `sep` never occurs. -/
def splitFirstAt (sep : List Char) : List Char → List Char
  | [] => []
  | c :: r => if sep.isPrefixOf (c :: r) then [] else c :: splitFirstAt sep r

/-!
Risk classifier: src/devos-mvp/src/approval/risk_assessment.py.
-/

/-- RiskAssessment.risk_levels. -/
def riskLevels : List (String × Nat) :=
  [("safe", 0), ("low", 1), ("medium", 2), ("high", 3), ("critical", 4)]

/-- RiskAssessment.command_risks. -/
def commandRisks : List (String × String) :=
  [("ls", "safe"), ("cat", "safe"), ("grep", "safe"), ("find", "safe"),
   ("head", "safe"), ("tail", "safe"), ("pwd", "safe"), ("whoami", "safe"),
   ("date", "safe"), ("uptime", "safe"), ("which", "safe"), ("whereis", "safe"),
   ("mkdir", "low"), ("touch", "low"), ("cp", "low"), ("mv", "low"),
   ("git status", "low"), ("git log", "low"), ("git show", "low"),
   ("rm", "medium"), ("rmdir", "medium"), ("chmod", "medium"), ("chown", "medium"),
   ("git add", "medium"), ("git commit", "medium"), ("git push", "medium"),
   ("pip install", "medium"), ("npm install", "medium"),
   ("sudo", "high"), ("su", "high"), ("passwd", "high"),
   ("systemctl", "high"), ("service", "high"),
   ("iptables", "high"), ("ufw", "high"),
   ("dd", "critical"), ("mkfs", "critical"), ("fdisk", "critical"),
   ("cfdisk", "critical"), ("parted", "critical")]

/-- RiskAssessment.high_risk_patterns, in source order:
rm -rf root, rm -rf star, disk-device write, chmod 777 root,
chown of root, curl piped to sh, wget piped to sh, fork bomb. -/
def highRiskPatterns : List (List RTok) :=
  [ litToks "rm" ++ ws1 ++ litToks "-rf" ++ ws1 ++ litToks "/",
    litToks "rm" ++ ws1 ++ litToks "-rf" ++ ws1 ++ litToks "*",
    litToks ">" ++ ws0 ++ litToks "/dev/sd" ++ [azCls],
    litToks "chmod" ++ ws1 ++ litToks "777" ++ ws1 ++ litToks "/",
    litToks "chown" ++ ws1 ++ dotStar ++ ws1 ++ litToks "/",
    litToks "curl" ++ dotStar ++ litToks "|" ++ ws0 ++ litToks "sh",
    litToks "wget" ++ dotStar ++ litToks "|" ++ ws0 ++ litToks "sh",
    litToks ":()" ++ [.lit '\x7b'] ++ ws0 ++ litToks ":|:&" ++ ws0 ++ [.lit '\x7d'] ]

/-- Regex `eval\s*\$\(` (searched case-sensitively in the classifier). -/
def patEvalSubst : List RTok := litToks "eval" ++ ws0 ++ litToks "$("

/-- RiskAssessment.critical_paths (identical list in the validator's
protected_paths up to ordering; each module keeps its own copy). -/
def criticalPaths : List String :=
  ["/boot", "/sys", "/proc", "/dev",
   "/etc/passwd", "/etc/shadow", "/etc/sudoers",
   "/var/log", "/etc/ssh", "/root"]

/-- One pipe/redirect stripping round of _extract_main_command's loop:
`if sep in command: command = command.split(sep)[0].strip()`. -/
def stripAtSep (sep : String) (l : List Char) : List Char :=
  if containsSubL sep.toList l then trimL (splitFirstAt sep.toList l) else l

/-- RiskAssessment._extract_main_command (the same helper appears verbatim
in preferences.py and validators.py): strip, drop a leading "sudo ",
cut at the first pipe, then at redirect operators in the order
'>', '>>', '<', and return the first whitespace-separated word. -/
def extractMainL (l : List Char) : List Char :=
  let c := trimL l
  let c := if "sudo ".toList.isPrefixOf c then trimL (c.drop 5) else c
  let c := if c.contains '|' then trimL (splitFirstAt ['|'] c) else c
  let c := stripAtSep ">" c
  let c := stripAtSep ">>" c
  let c := stripAtSep "<" c
  match wordsAux c [] with
  | [] => []
  | w :: _ => w

/-- String wrapper for _extract_main_command. -/
def extractMainCommand (s : String) : String := String.mk (extractMainL s.toList)

/-- RiskAssessment._assess_base_command_risk on a character list.  The
table lookup comes first; the "sudo " minimum applies only after it
misses, recursing on command[5:].  The recursion consumes five
characters per level, so it is driven structurally by a fuel
initialized to the character count; the fuel-exhausted branch is
unreachable (the sudo branch requires a nonempty list). -/
def assessBaseCommandRiskFuel : Nat → List Char → Nat
  | 0, _ => 2
  | fuel + 1, l =>
    if (extractMainL l).isEmpty then 1
    else
      match lookupA commandRisks (String.mk (extractMainL l)) with
      | some lvl => (lookupA riskLevels lvl).getD 0
      | none =>
        if "sudo ".toList.isPrefixOf (trimL l) then
          max 3 (assessBaseCommandRiskFuel fuel (l.drop 5))
        else 2

/-- _assess_base_command_risk on a character list.  A fuel of
length + 1 covers every recursion chain: the sudo branch needs a
nonempty list and removes five characters per level. -/
def assessBaseCommandRiskL (l : List Char) : Nat :=
  assessBaseCommandRiskFuel (l.length + 1) l

/-- RiskAssessment._assess_base_command_risk. -/
def assessBaseCommandRisk (s : String) : Nat := assessBaseCommandRiskL s.toList

/-- RiskAssessment._assess_pattern_risk. -/
def assessPatternRisk (command : String) : Nat :=
  let m := highRiskPatterns.foldl
    (fun acc pat => if reSearchIC pat command then max acc 4 else acc) 0
  let m :=
    if command.toList.contains '|' &&
        (pyContains command "sh" || pyContains command "bash" ||
          pyContains command "zsh") then
      max m 3
    else m
  if reSearchCS patEvalSubst command then max m 3 else m

/-- The context dict consumed by the classifier (keys read with .get and
their Python defaults). -/
structure SysCtx where
  currentDirectory : String := ""
  user : String := ""
  recentCommands : List String := []
deriving DecidableEq, Repr

/-- Python l[-n:]. -/
def lastN {α : Type} (n : Nat) (l : List α) : List α := l.drop (l.length - n)

/-- RiskAssessment._assess_context_risk. -/
def assessContextRisk (_command : String) (ctx : SysCtx) : Nat :=
  let r := 0
  let r :=
    if ["/boot", "/sys", "/proc", "/dev", "/etc"].contains ctx.currentDirectory
    then max r 3 else r
  let r := if ctx.user = "root" then max r 2 else r
  if (lastN 5 ctx.recentCommands).any (fun c => pyContains c "sudo") then
    max r 1
  else r

/-- RiskAssessment._assess_path_risk. -/
def assessPathRisk (command : String) : Nat :=
  criticalPaths.foldl
    (fun m p =>
      if pyContains command p then
        if ["rm", "mv", "cp", "chmod", "chown"].any
            (fun op => pyContains command op) then
          max m 4
        else max m 2
      else m) 0

/-- RiskAssessment._risk_level_name: first level whose score equals the
argument, in risk_levels insertion order; "unknown" otherwise. -/
def riskLevelName (score : Nat) : String :=
  match riskLevels.find? (fun p => p.2 == score) with
  | some p => p.1
  | none => "unknown"

/-- RiskAssessment._generate_risk_reasons. -/
def generateRiskReasons (command : String) (score : Nat) : List String :=
  let reasons :=
    if score ≥ 4 then ["Command could cause irreversible system damage"]
    else if score ≥ 3 then ["Command requires elevated privileges or system access"]
    else if score ≥ 2 then ["Command modifies files or system state"]
    else if score ≥ 1 then ["Command has minor side effects"]
    else ["Command appears safe for execution"]
  let reasons :=
    if pyContains command "rm" then
      reasons ++ ["Command deletes files or directories"]
    else reasons
  let reasons :=
    if pyContains command "sudo" then
      reasons ++ ["Command uses elevated privileges"]
    else reasons
  if criticalPaths.any (fun p => pyContains command p) then
    reasons ++ ["Command accesses critical system paths"]
  else reasons

/-- RiskAssessment._generate_recommendations. -/
def generateRecommendations (_command : String) (score : Nat) : List String :=
  if score ≥ 4 then
    ["Consider alternatives to this command",
     "Review command carefully before execution",
     "Ensure you have system backups",
     "Consider running in a test environment first"]
  else if score ≥ 3 then
    ["Review command parameters carefully",
     "Ensure you have necessary permissions",
     "Consider the impact on system stability"]
  else if score ≥ 2 then
    ["Verify target files/directories exist",
     "Consider backing up affected files"]
  else if score ≥ 1 then
    ["Command should be safe to execute"]
  else []

/-- The 'factors' sub-dict of an assessment. -/
structure RiskFactors where
  baseCommand : String
  patterns : String
  context : String
  paths : String
deriving DecidableEq, Repr

/-- The dict returned by RiskAssessment.assess_command_risk. -/
structure RiskReport where
  level : String
  score : Nat
  factors : RiskFactors
  reasons : List String
  recommendations : List String
deriving DecidableEq, Repr

/-- RiskAssessment.assess_command_risk (the pure path; the enclosing
try/except cannot fire in this embedding). -/
def assessCommandRisk (command : String) (ctx : SysCtx) : RiskReport :=
  let base := assessBaseCommandRisk command
  let pat := assessPatternRisk command
  let ctxR := assessContextRisk command ctx
  let pathR := assessPathRisk command
  let overall := max base (max pat (max ctxR pathR))
  { level := riskLevelName overall
    score := overall
    factors :=
      ⟨riskLevelName base, riskLevelName pat, riskLevelName ctxR,
        riskLevelName pathR⟩
    reasons := generateRiskReasons command overall
    recommendations := generateRecommendations command overall }

/-!
Preference store: src/devos-mvp/src/approval/preferences.py.
Python passes some arguments dynamically typed (the daemon API hands a
dict where a str is expected), so values that may be either are
modelled by `PyVal`.  hashlib.sha256 hexdigest is an oracle parameter
`sha`.
-/

/-- A dynamically typed Python value as passed through the preference
API: a string, or a dict (payload irrelevant to every code path that
receives one). -/
inductive PyVal where
  | pstr (s : String)
  | pdict (kvs : List (String × String))
deriving DecidableEq, Repr

/-- A stored fingerprint preference
(preferences.py learn_preference, lines 102-108).  learned_at is the
wall clock at learning time. -/
structure PrefEntry where
  command : String
  approved : Bool
  note : String
  learnedAt : Nat
  usageCount : Nat
deriving DecidableEq, Repr

/-- A pattern counter bucket ({'approved': _, 'rejected': _, 'total': _}). -/
structure PatternCounts where
  approved : Nat
  rejected : Nat
  total : Nat
deriving DecidableEq, Repr

/-- One approval_history entry. -/
structure HistEntry where
  userId : String
  command : String
  approved : Bool
  note : String
  timestamp : Nat
  context : PyVal
deriving DecidableEq, Repr

/-- The in-memory state of UserPreferences: preferences (user →
fingerprint → entry), command_patterns (user → token → counters) and
approval_history. -/
structure PrefState where
  preferences : List (String × List (String × PrefEntry))
  commandPatterns : List (String × List (String × PatternCounts))
  approvalHistory : List HistEntry
deriving DecidableEq, Repr

/-- The empty preference store. -/
def emptyPrefState : PrefState := ⟨[], [], []⟩

/-- Whitespace normalization in _hash_command:
normalized = ' '.join(command.split()). -/
def normalizeCommand (s : String) : String :=
  String.intercalate " " (pySplitWs s)

/-- UserPreferences._hash_command on a genuine string:
sha256 hexdigest (oracle `sha`) of the normalized command, first 16
characters. -/
def hashCommandStr (sha : String → String) (command : String) : String :=
  (sha (normalizeCommand command)).take 16

/-- _hash_command on a dynamically typed argument: command.split() on a
dict raises AttributeError (Except.error). -/
def hashCommandVal (sha : String → String) : PyVal → Except Unit String
  | .pstr s => .ok (hashCommandStr sha s)
  | .pdict _ => .error ()

/-- UserPreferences._extract_command_args: strip, drop "sudo ", then
every whitespace word after the first. -/
def extractCommandArgs (command : String) : List String :=
  let c := trimL command.toList
  let c := if "sudo ".toList.isPrefixOf c then trimL (c.drop 5) else c
  match wordsAux c [] with
  | [] => []
  | _ :: args => args.map String.mk

/-- Increment one pattern bucket (the `approved`/`rejected` and `total`
updates of _learn_command_pattern). -/
def bumpPattern (m : List (String × PatternCounts)) (key : String)
    (approved : Bool) : List (String × PatternCounts) :=
  let c := (lookupA m key).getD ⟨0, 0, 0⟩
  let c' :=
    if approved then
      { c with approved := c.approved + 1, total := c.total + 1 }
    else
      { c with rejected := c.rejected + 1, total := c.total + 1 }
  setA key c' m

/-- UserPreferences._learn_command_pattern: bump the head-command bucket
and a main_flag_arg bucket for every argument starting with '-'. -/
def learnCommandPattern (s : PrefState) (userId command : String)
    (approved : Bool) : PrefState :=
  let main := extractMainCommand command
  let args := extractCommandArgs command
  let um := (lookupA s.commandPatterns userId).getD []
  let um := bumpPattern um main approved
  let um := args.foldl
    (fun m arg =>
      if pyStartsWith arg "-" then
        bumpPattern m (main ++ "_flag_" ++ arg) approved
      else m) um
  { s with commandPatterns := setA userId um s.commandPatterns }

/-- UserPreferences.learn_preference.  The whole body sits in a blanket
try/except, so state written before an exception is kept: the user
bucket is created first, then _hash_command runs — and raises
AttributeError when `command` is a dict, ending the call there. -/
def learnPreference (sha : String → String) (now : Nat) (s : PrefState)
    (userId : String) (command context : PyVal) (approved : Bool)
    (note : String) : PrefState :=
  let s1 :=
    if (lookupA s.preferences userId).isNone then
      { s with preferences := setA userId [] s.preferences }
    else s
  match command with
  | .pdict _ => s1
  | .pstr cmdStr =>
    let h := hashCommandStr sha cmdStr
    let userMap := (lookupA s1.preferences userId).getD []
    let prevCount := match lookupA userMap h with
      | some e => e.usageCount
      | none => 0
    let entry : PrefEntry :=
      { command := cmdStr, approved := approved, note := note,
        learnedAt := now, usageCount := prevCount + 1 }
    let s2 :=
      { s1 with preferences := setA userId (setA h entry userMap) s1.preferences }
    let s3 := learnCommandPattern s2 userId cmdStr approved
    { s3 with approvalHistory := s3.approvalHistory ++
        [⟨userId, cmdStr, approved, note, now, context⟩] }

/-- The pattern-match verdict dicts built by _find_pattern_match:
{'always_approve': True, 'confidence': …, 'based_on': …} or the
always_deny counterpart.  Rates are exact rationals; for the small
integer counters involved the Python float comparisons against the
literals 0.8 and 0.2 agree with the rational ones. -/
inductive PatternDecision where
  | alwaysApprove (confidence : ℚ) (basedOn : String)
  | alwaysDeny (confidence : ℚ) (basedOn : String)
deriving DecidableEq, Repr

/-- The based_on evidence string. -/
def basedOnStr (main : String) (total : Nat) : String :=
  "Pattern match for \x27" ++ main ++ "\x27 (" ++ toString total ++ " examples)"

/-- UserPreferences._find_pattern_match. -/
def findPatternMatch (cp : List (String × List (String × PatternCounts)))
    (userId command : String) : Option PatternDecision :=
  match lookupA cp userId with
  | none => none
  | some up =>
    let main := extractMainCommand command
    match lookupA up main with
    | none => none
    | some pd =>
      if pd.total ≥ 3 then
        let rate : ℚ := (pd.approved : ℚ) / (pd.total : ℚ)
        if rate ≥ 4/5 then
          some (.alwaysApprove rate (basedOnStr main pd.total))
        else if rate ≤ 1/5 then
          some (.alwaysDeny (1 - rate) (basedOnStr main pd.total))
        else none
      else none

/-- What get_command_preference can hand back: a stored fingerprint
entry dict, or a pattern-verdict dict. -/
inductive UserPref where
  | exact (e : PrefEntry)
  | pattern (d : PatternDecision)
deriving DecidableEq, Repr

/-- user_pref.get('always_approve', False): only a pattern verdict dict
carries the key. -/
def prefAlwaysApprove : UserPref → Bool
  | .exact _ => false
  | .pattern (.alwaysApprove _ _) => true
  | .pattern (.alwaysDeny _ _) => false

/-- user_pref.get('always_deny', False). -/
def prefAlwaysDeny : UserPref → Bool
  | .exact _ => false
  | .pattern (.alwaysApprove _ _) => false
  | .pattern (.alwaysDeny _ _) => true

/-- UserPreferences.get_command_preference: exact fingerprint hit first,
then the pattern index, else None. -/
def getCommandPreference (sha : String → String) (s : PrefState)
    (userId command : String) : Option UserPref :=
  let userPrefs := (lookupA s.preferences userId).getD []
  let h := hashCommandStr sha command
  match lookupA userPrefs h with
  | some e => some (.exact e)
  | none =>
    match findPatternMatch s.commandPatterns userId command with
    | some d => some (.pattern d)
    | none => none

/-!
Approval manager: src/devos-mvp/src/approval/manager.py.
-/

/-- The ApprovalStatus enum. -/
inductive ApprovalStatus where
  | autoApproved
  | pending
  | approved
  | rejected
  | timeout
deriving DecidableEq, Repr

/-- ApprovalStatus .value strings. -/
def ApprovalStatus.val : ApprovalStatus → String
  | .autoApproved => "auto_approved"
  | .pending => "pending"
  | .approved => "approved"
  | .rejected => "rejected"
  | .timeout => "timeout"

/-- Python `user_pref and user_pref.get('always_deny', False)`. -/
def optPrefDeny : Option UserPref → Bool
  | some p => prefAlwaysDeny p
  | none => false

/-- Python `user_pref and user_pref.get('always_approve', False)`. -/
def optPrefApprove : Option UserPref → Bool
  | some p => prefAlwaysApprove p
  | none => false

/-- ApprovalManager.requires_approval.  Pure sub-calls cannot raise, so
the fail-closed except branch is unreachable in the embedding.  The
first branch returns in both of its sub-cases, so the later checks run
only when auto-approve-safe is off or the risk level is not safe. -/
def requiresApproval (sha : String → String) (prefs : PrefState)
    (autoApproveSafe : Bool) (command : String) (ctx : SysCtx)
    (userId : String) : Bool :=
  let riskLevel := (assessCommandRisk command ctx).level
  let userPref := getCommandPreference sha prefs userId command
  if autoApproveSafe && (riskLevel == "safe") then
    optPrefDeny userPref
  else if optPrefApprove userPref then
    riskLevel == "high" || riskLevel == "critical"
  else
    riskLevel != "safe"

/-- One entry of ApprovalManager.pending_approvals. -/
structure ApprovalData where
  command : String
  userId : String
  context : PyVal
  risk : RiskReport
  status : ApprovalStatus
  createdAt : Nat
  expiresAt : Nat
deriving DecidableEq, Repr

/-- The three dict shapes returned by process_approval_response:
not-found ({'success': False, 'error': 'Approval request not found or
expired'}), expired ({'success': False, 'error': 'Approval request has
expired'}), and the success dict carrying approved/status/note. -/
inductive RespResult where
  | notFound
  | expired
  | ok (approved : Bool) (status : String) (note : String)
deriving DecidableEq, Repr

/-- The response dict fields read with .get (Python defaults False,
False, ''). -/
structure RespInput where
  approved : Bool := false
  remember : Bool := false
  note : String := ""
deriving DecidableEq, Repr

/-- Result triple of process_approval_response: the returned dict plus
the updated pending-approvals table and preference store. -/
structure ProcessOutcome where
  resp : RespResult
  pending : List (String × ApprovalData)
  prefs : PrefState
deriving DecidableEq, Repr

/-- Python `del pending[id]` (the mutation of the popped entry's status
before deletion has no observable effect once the entry is removed). -/
def removeA {α : Type} (key : String) (l : List (String × α)) :
    List (String × α) := l.filter (fun p => p.1 != key)

/-- ApprovalManager.process_approval_response.  learnFlag is the
manager's learn_preferences config; sha and now as elsewhere.  Note the
learning call here passes (user_id, command, context, approved, note)
in the correct positions, unlike the daemon API endpoint. -/
def processApprovalResponse (sha : String → String) (learnFlag : Bool)
    (now : Nat) (pending : List (String × ApprovalData)) (prefs : PrefState)
    (approvalId : String) (resp : RespInput) : ProcessOutcome :=
  match lookupA pending approvalId with
  | none => ⟨.notFound, pending, prefs⟩
  | some data =>
    if now > data.expiresAt then
      ⟨.expired, removeA approvalId pending, prefs⟩
    else
      let st : ApprovalStatus :=
        if resp.approved then .approved else .rejected
      let prefs' :=
        if resp.remember && learnFlag then
          learnPreference sha now prefs data.userId (.pstr data.command)
            data.context resp.approved resp.note
        else prefs
      ⟨.ok resp.approved st.val resp.note, removeA approvalId pending, prefs'⟩

/-- ApprovalManager.learn_preference (the manager method): gated by the
learn_preferences flag, then forwards to the store (whose blanket
except keeps the method's own try/except from firing). -/
def managerLearnPreference (sha : String → String) (now : Nat)
    (learnFlag : Bool) (s : PrefState) (userId : String)
    (command context : PyVal) (approved : Bool) : PrefState :=
  if learnFlag then
    learnPreference sha now s userId command context approved ""
  else s

/-- The daemon API approve endpoint's learning call
(api.py approve_command, remember=True):
`approval_manager.learn_preference(job.command, job.context,
job.user_id, True)` — job.command lands in the user_id position,
job.context (a dict) in the command position and job.user_id in the
context position. -/
def approveRememberEffect (sha : String → String) (now : Nat)
    (learnFlag : Bool) (s : PrefState) (jobCommand : String)
    (jobContext : List (String × String)) (jobUserId : String) : PrefState :=
  managerLearnPreference sha now learnFlag s jobCommand
    (.pdict jobContext) (.pstr jobUserId) true

/-!
Command validator: src/devos-mvp/src/executor/validators.py.
-/

/-- CommandValidator's configurable lists (security_config with the
source defaults available as defaultAllowedCommands /
defaultBlockedCommands). -/
structure ValidatorCfg where
  allowedCommands : List String
  blockedCommands : List String
deriving DecidableEq, Repr

/-- Default allowed_commands. -/
def defaultAllowedCommands : List String :=
  ["ls", "cp", "mv", "mkdir", "rmdir", "touch", "cat", "grep", "find",
   "git", "npm", "pip", "python", "python3", "node", "docker",
   "kubectl", "helm", "terraform", "aws"]

/-- Default blocked_commands. -/
def defaultBlockedCommands : List String :=
  ["rm -rf /", "mkfs", "dd", "sudo rm -rf", "chmod 777 /",
   "chown root /", "init 0", "shutdown", "reboot"]

/-- CommandValidator.dangerous_patterns, in source order. -/
def dangerousPatterns : List (List RTok) :=
  [ litToks "rm" ++ ws1 ++ litToks "-rf" ++ ws1 ++ litToks "/",
    litToks ":()" ++ [.lit '\x7b'] ++ ws0 ++ litToks ":|:&" ++ ws0 ++ [.lit '\x7d'],
    litToks "mkfs.",
    litToks "dd" ++ ws1 ++ litToks "if=/dev/zero",
    litToks ">/dev/sd" ++ [azCls],
    litToks "chmod" ++ ws1 ++ litToks "777" ++ ws1 ++ litToks "/",
    litToks "curl" ++ dotStar ++ litToks "|" ++ ws0 ++ litToks "sh",
    litToks "wget" ++ dotStar ++ litToks "|" ++ ws0 ++ litToks "sh",
    litToks "eval" ++ ws0 ++ litToks "$(" ]

/-- CommandValidator.protected_paths. -/
def protectedPaths : List String :=
  ["/etc/passwd", "/etc/shadow", "/etc/sudoers",
   "/boot", "/sys", "/proc", "/dev",
   "/var/log", "/etc/ssh", "/root"]

/-- The dict returned by the validators (valid/reason/severity plus the
warnings list added on the success path). -/
structure ValidationResult where
  valid : Bool
  reason : String
  severity : String
  warnings : List String := []
deriving DecidableEq, Repr

/-- CommandValidator._check_protected_paths: first protected path that
occurs as a substring. -/
def checkProtectedPaths (command : String) : Option String :=
  protectedPaths.find? (fun p => pyContains command p)

/-- _assess_destructive_risk extreme patterns. -/
def extremeRiskPatterns : List (List RTok) :=
  [ litToks "rm" ++ ws1 ++ litToks "-rf" ++ ws1 ++ litToks "/",
    litToks "rm" ++ ws1 ++ litToks "-rf" ++ ws1 ++ litToks "*",
    litToks "rm" ++ ws1 ++ litToks "-rf" ++ ws1 ++ litToks "~",
    litToks "mkfs",
    litToks "dd" ++ ws1 ++ litToks "if=/dev/zero" ++ ws1 ++ litToks "of=/",
    litToks "chmod" ++ ws1 ++ litToks "000" ++ ws1 ++ litToks "/",
    litToks "chown" ++ ws1 ++ litToks "root:root" ++ ws1 ++ litToks "/" ]

/-- _assess_destructive_risk high patterns. -/
def highDestructivePatterns : List (List RTok) :=
  [ litToks "rm" ++ ws1 ++ litToks "-rf",
    litToks "rm" ++ ws1 ++ litToks "-r" ++ ws1 ++ litToks "*",
    litToks "chmod" ++ ws1 ++ litToks "777",
    litToks "chown" ++ ws1 ++ dotStar ++ ws1 ++ litToks "/" ]

/-- CommandValidator._assess_destructive_risk risk_level field. -/
def assessDestructiveRiskLevel (command : String) : String :=
  if extremeRiskPatterns.any (fun p => reSearchIC p command) then "extreme"
  else if highDestructivePatterns.any (fun p => reSearchIC p command) then "high"
  else "moderate"

/-- CommandValidator._generate_warnings. -/
def generateWarnings (command : String) (_safetyLevel : String) : List String :=
  let w : List String := []
  let w :=
    if ["rm ", "mv ", "cp "].any (fun c => pyContains command c) then
      w ++ ["Command modifies files"]
    else w
  let w :=
    if ["curl", "wget", "ssh", "scp"].any (fun c => pyContains command c) then
      w ++ ["Command involves network operations"]
    else w
  let w :=
    if ["pip install", "npm install", "apt install"].any
        (fun c => pyContains command c) then
      w ++ ["Command installs software packages"]
    else w
  if pyContains command "sudo" then
    w ++ ["Command uses elevated privileges"]
  else w

/-- CommandValidator._validate_bash_command: blocked substrings
(case-insensitive), dangerous regexes, allow list on the extracted main
command (skipped when it is empty, since Python's truthiness test
guards the check), protected paths unless the declared safety level is
destructive, extreme destructive sweep for destructive steps. -/
def validateBashCommand (cfg : ValidatorCfg) (command safetyLevel : String) :
    ValidationResult :=
  match cfg.blockedCommands.find?
      (fun b => pyContains (pyLower command) (pyLower b)) with
  | some blocked =>
    ⟨false, "Blocked command pattern: " ++ blocked, "high", []⟩
  | none =>
    if dangerousPatterns.any (fun p => reSearchIC p command) then
      ⟨false, "Dangerous command pattern detected", "high", []⟩
    else
      let main := extractMainCommand command
      if main ≠ "" ∧ main ∉ cfg.allowedCommands then
        ⟨false, "Command not in allowlist: " ++ main, "medium", []⟩
      else
        match checkProtectedPaths command with
        | some path =>
          if safetyLevel ≠ "destructive" then
            ⟨false, "Access to protected path: " ++ path, "high", []⟩
          else if safetyLevel = "destructive" &&
              assessDestructiveRiskLevel command = "extreme" then
            ⟨false,
              "Extremely destructive command: Command could destroy system or critical data",
              "critical", []⟩
          else
            ⟨true, "Command passed security validation", "none",
              generateWarnings command safetyLevel⟩
        | none =>
          if safetyLevel = "destructive" &&
              assessDestructiveRiskLevel command = "extreme" then
            ⟨false,
              "Extremely destructive command: Command could destroy system or critical data",
              "critical", []⟩
          else
            ⟨true, "Command passed security validation", "none",
              generateWarnings command safetyLevel⟩

/-- CommandValidator._validate_python_command. -/
def validatePythonCommand (command safetyLevel : String) : ValidationResult :=
  let dangerous :=
    ["import os", "import subprocess", "import sys",
     "eval(", "exec(", "__import__",
     "open(", "file(", "input(",
     "raw_input(", "compile("]
  match dangerous.find? (fun d => pyContains command d) with
  | some d =>
    if safetyLevel ≠ "destructive" then
      ⟨false, "Potentially dangerous Python operation: " ++ d, "medium", []⟩
    else ⟨true, "Python command passed validation", "none", []⟩
  | none => ⟨true, "Python command passed validation", "none", []⟩

/-- CommandValidator._validate_sql_command. -/
def validateSqlCommand (command safetyLevel : String) : ValidationResult :=
  let dangerous :=
    ["DROP TABLE", "DROP DATABASE", "DELETE FROM",
     "TRUNCATE", "ALTER TABLE", "UPDATE ",
     "INSERT INTO", "CREATE USER", "GRANT ALL"]
  let upper := String.mk (command.toList.map Char.toUpper)
  match dangerous.find? (fun d => pyContains upper d) with
  | some d =>
    if safetyLevel ≠ "destructive" then
      ⟨false, "Potentially destructive SQL operation: " ++ d, "high", []⟩
    else ⟨true, "SQL command passed validation", "none", []⟩
  | none => ⟨true, "SQL command passed validation", "none", []⟩

/-- One planned step as a dict (command_info): the keys read with .get
by validator and executor. -/
structure CommandInfo where
  type : String := "bash"
  command : String := ""
  description : String := ""
  safetyLevel : String := "safe"
deriving DecidableEq, Repr

/-- CommandValidator.validate_command: empty-command check, then
dispatch on the step type. -/
def validateCommand (cfg : ValidatorCfg) (ci : CommandInfo) : ValidationResult :=
  if ci.command = "" || pyStrip ci.command = "" then
    ⟨false, "Empty command", "low", []⟩
  else if ci.type = "bash" then
    validateBashCommand cfg ci.command ci.safetyLevel
  else if ci.type = "python" then
    validatePythonCommand ci.command ci.safetyLevel
  else if ci.type = "sql" then
    validateSqlCommand ci.command ci.safetyLevel
  else
    ⟨false, "Unsupported command type: " ++ ci.type, "medium", []⟩

/-!
Sandbox executor: src/devos-mvp/src/executor/sandbox.py.
Subprocess behaviour is an oracle `run` (bash) / `runPy` (the python3
wrapper process, keyed by the interpolated command): what the spawned
process would print, its exit status, and its wall-clock duration in
seconds.  asyncio.wait_for raises TimeoutError when the duration
exceeds the configured limit.
-/

/-- CommandResult from daemon/models.py.  execution_time is
milliseconds (a float in Python, integral in every path modelled). -/
structure CommandResult where
  success : Bool
  output : String := ""
  error : String := ""
  exitCode : Int := 0
  executionTime : Nat := 0
  commandsExecuted : List String := []
  filesAffected : List String := []
deriving DecidableEq, Repr

/-- What the OS does for one spawned subprocess. -/
structure ProcBehavior where
  duration : Nat
  stdout : String := ""
  stderr : String := ""
  returncode : Int := 0
deriving DecidableEq, Repr

/-- CommandExecutor's execution limits from security_config. -/
structure SandboxCfg where
  maxExecutionTime : Nat := 120
  sandboxEnabled : Bool := true
deriving DecidableEq, Repr

/-- Python str.replace(old, new, 1): replace the first occurrence. -/
def replaceFirstL (old new : List Char) : List Char → List Char
  | [] => []
  | c :: r =>
    if old.isPrefixOf (c :: r) then new ++ (c :: r).drop old.length
    else c :: replaceFirstL old new r

/-- Python command.split(sep)[-1]: the suffix after the last occurrence
of sep (the whole string when sep does not occur). -/
def afterLast (sep l : List Char) : List Char :=
  (splitFirstAt sep.reverse l.reverse).reverse

/-- Python str.strip(ch) for a single character. -/
def stripCharL (ch : Char) (l : List Char) : List Char :=
  ((l.dropWhile (· == ch)).reverse.dropWhile (· == ch)).reverse

/-- CommandExecutor._apply_sandbox_restrictions: substring screen over
the lowered command (ValueError modelled as Except.error), then the
interactive-flag rewrite of a leading rm. -/
def applySandboxRestrictions (command : String) : Except String String :=
  let dangerous :=
    ["rm -rf /", "mkfs", "dd if=", "chmod 777", "chown root",
     "sudo rm", "sudo dd"]
  match dangerous.find? (fun p => pyContains (pyLower command) p) with
  | some p => .error ("Dangerous command pattern detected: " ++ p)
  | none =>
    if pyStartsWith (pyStrip command) "rm " then
      .ok (String.mk (replaceFirstL "rm ".toList "rm -i ".toList command.toList))
    else .ok command

/-- CommandExecutor._detect_affected_files (the output argument is
unused by the source body as well). -/
def detectAffectedFiles (command : String) (_output : String) : List String :=
  let parts := pySplitWs command
  let affected : List String :=
    if pyContains command "cp " || pyContains command "copy " then
      if parts.length ≥ 3 then lastN 2 parts else []
    else if pyContains command "mv " || pyContains command "move " then
      if parts.length ≥ 3 then lastN 2 parts else []
    else if pyContains command "rm " then
      (parts.drop 1).filter (fun p => ¬ pyStartsWith p "-")
    else if pyContains command "touch " then
      parts.drop 1
    else if pyContains command ">" || pyContains command ">>" then
      if pyContains command ">>" then
        [String.mk (trimL (afterLast ">>".toList command.toList))]
      else
        [String.mk (trimL (afterLast ">".toList command.toList))]
    else []
  (affected.map
      (fun fp => String.mk (stripCharL '\'' (stripCharL '"' (trimL fp.toList))))).filter
    (fun fp => fp ≠ "" && ¬ pyStartsWith fp "-")

/-- CommandExecutor._execute_bash_command: sandbox restriction (its
ValueError is caught by the enclosing except), subprocess with
wait_for; on timeout the process is killed and the step records exit
code 124 with the configured limit as elapsed time. -/
def executeBashCommand (run : String → ProcBehavior) (cfg : SandboxCfg)
    (command : String) : CommandResult :=
  match (if cfg.sandboxEnabled then applySandboxRestrictions command
         else .ok command) with
  | .error msg =>
    { success := false, error := "Command execution failed: " ++ msg,
      exitCode := 1, executionTime := 0 }
  | .ok cmd =>
    let b := run cmd
    if b.duration > cfg.maxExecutionTime then
      { success := false,
        error := "Command timed out after " ++
          toString cfg.maxExecutionTime ++ " seconds",
        exitCode := 124,
        executionTime := cfg.maxExecutionTime * 1000 }
    else
      let out := pyStrip b.stdout
      { success := b.returncode == 0, output := out,
        error := pyStrip b.stderr, exitCode := b.returncode,
        executionTime := b.duration * 1000, commandsExecuted := [cmd],
        filesAffected := detectAffectedFiles cmd out }

/-- CommandExecutor._execute_python_command: the subprocess runs a fixed
wrapper script with the step's expression interpolated; as the wrapper
is a fixed injective function of the command, the oracle is keyed by
the command itself. -/
def executePythonCommand (runPy : String → ProcBehavior) (cfg : SandboxCfg)
    (command : String) : CommandResult :=
  let b := runPy command
  if b.duration > cfg.maxExecutionTime then
    { success := false,
      error := "Python command timed out after " ++
        toString cfg.maxExecutionTime ++ " seconds",
      exitCode := 124,
      executionTime := cfg.maxExecutionTime * 1000 }
  else
    { success := b.returncode == 0, output := pyStrip b.stdout,
      error := pyStrip b.stderr, exitCode := b.returncode,
      executionTime := b.duration * 1000, commandsExecuted := [command] }

/-- CommandExecutor._execute_sql_command. -/
def executeSqlCommand : CommandResult :=
  { success := false, error := "SQL command execution not implemented in MVP",
    exitCode := 1 }

/-- CommandExecutor._execute_single_command. -/
def executeSingleCommand (run runPy : String → ProcBehavior)
    (cfg : SandboxCfg) (ci : CommandInfo) : CommandResult :=
  if ci.type = "bash" then executeBashCommand run cfg ci.command
  else if ci.type = "python" then executePythonCommand runPy cfg ci.command
  else if ci.type = "sql" then executeSqlCommand
  else { success := false, error := "Unsupported command type: " ++ ci.type }

/-- Accumulators of CommandExecutor.execute's loop. -/
structure ExecAcc where
  output : List String := []
  errors : List String := []
  cmdsExec : List String := []
  files : List String := []
  success : Bool := true
  timeMs : Nat := 0
deriving DecidableEq, Repr

/-- The per-step loop of CommandExecutor.execute: validation failure
records an error and continues; a failed destructive step breaks out of
the loop. -/
def executeLoop (run runPy : String → ProcBehavior) (vcfg : ValidatorCfg)
    (scfg : SandboxCfg) : List CommandInfo → ExecAcc → ExecAcc
  | [], acc => acc
  | ci :: rest, acc =>
    let v := validateCommand vcfg ci
    if ¬ v.valid then
      executeLoop run runPy vcfg scfg rest
        { acc with
          errors := acc.errors ++ ["Command validation failed: " ++ v.reason],
          success := false }
    else
      let r := executeSingleCommand run runPy scfg ci
      let acc :=
        { acc with
          output := acc.output ++ [r.output],
          errors := if r.error ≠ "" then acc.errors ++ [r.error] else acc.errors,
          cmdsExec := acc.cmdsExec ++ [ci.command],
          files := acc.files ++ r.filesAffected,
          timeMs := acc.timeMs + r.executionTime }
      if ¬ r.success then
        if ci.safetyLevel = "destructive" then { acc with success := false }
        else executeLoop run runPy vcfg scfg rest { acc with success := false }
      else executeLoop run runPy vcfg scfg rest acc

/-- CommandExecutor.execute: runs the loop and aggregates.  Wall-clock
elapsed time is modelled as the sum of subprocess durations; the final
list(set(files)) has unspecified order in Python and is modelled as
first-occurrence dedup. -/
def executeCmds (run runPy : String → ProcBehavior) (vcfg : ValidatorCfg)
    (scfg : SandboxCfg) (commands : List CommandInfo) (_userId : String) :
    CommandResult :=
  let acc := executeLoop run runPy vcfg scfg commands {}
  { success := acc.success,
    output := String.intercalate "\n" acc.output,
    error := if acc.errors ≠ [] then String.intercalate "\n" acc.errors else "",
    exitCode := if acc.success then 0 else 1,
    executionTime := acc.timeMs,
    commandsExecuted := acc.cmdsExec,
    filesAffected := acc.files.dedup }

/-!
Model-router response parsing: src/devos-mvp/src/llm/model_router.py,
_parse_llm_response.  json.loads is the external library oracle
`jsonLoads` (some = parsed plan, none = json.JSONDecodeError); it is
consulted only when the stripped response starts with a brace.
-/

/-- The structured dict produced by _parse_llm_response. -/
structure Parsed where
  interpretation : String
  commands : List CommandInfo
  explanation : String
  risks : List String
deriving DecidableEq, Repr

/-- The line scanner's current_section variable. -/
inductive ScanSection where
  | noSection
  | commands
  | interp
  | expl
deriving DecidableEq, Repr

/-- The scanner's loop state. -/
structure ScanState where
  sect : ScanSection
  cmds : List CommandInfo
  interpText : String
  explText : String
deriving DecidableEq, Repr

/-- Python line.replace(old, new) (all occurrences), old nonempty. -/
def replaceAllAux (o : Char) (os new : List Char) : List Char → List Char
  | [] => []
  | c :: r =>
    if (o :: os).isPrefixOf (c :: r) then
      new ++ replaceAllAux o os new (r.drop os.length)
    else c :: replaceAllAux o os new r
termination_by l => l.length
decreasing_by
  all_goals simp only [List.length_drop, List.length_cons]
  all_goals omega

/-- Python s.replace(old, new). -/
def pyReplaceAll (s old new : String) : String :=
  match old.toList with
  | [] => s
  | o :: os => String.mk (replaceAllAux o os new.toList s.toList)

/-- Python s.split(sep) for a one-character separator, keeping empty
fields (the accumulator holds the current field reversed). -/
def splitCharAux (c : Char) : List Char → List Char → List (List Char)
  | [], acc => [acc.reverse]
  | x :: xs, acc =>
    if x = c then acc.reverse :: splitCharAux c xs []
    else splitCharAux c xs (x :: acc)

/-- Python s.split(sep), sep a single character. -/
def pySplitChar (c : Char) (s : String) : List String :=
  (splitCharAux c s.toList []).map String.mk

/-- One iteration of the scanner's `for line in lines` body. -/
def scanLine (st : ScanState) (rawLine : String) : ScanState :=
  let line := pyStrip rawLine
  if line = "" then st
  else if pyStartsWith line "Commands:" || pyStartsWith line "```bash" then
    { st with sect := .commands }
  else if pyStartsWith line "Interpretation:" then
    { st with
      sect := .interp,
      interpText := pyStrip (pyReplaceAll line "Interpretation:" "") }
  else if pyStartsWith line "Explanation:" then
    { st with
      sect := .expl,
      explText := pyStrip (pyReplaceAll line "Explanation:" "") }
  else if pyStartsWith line "```" then
    { st with sect := .noSection }
  else
    match st.sect with
    | .commands =>
      let line2 :=
        if pyStartsWith line "$" || pyStartsWith line "#" then
          pyStrip (String.mk (line.toList.drop 1))
        else line
      if line2 ≠ "" then
        { st with cmds := st.cmds ++
            [⟨"bash", line2, "Execute: " ++ line2, "safe"⟩] }
      else st
    | .interp => { st with interpText := st.interpText ++ " " ++ line }
    | .expl => { st with explText := st.explText ++ " " ++ line }
    | .noSection => st

/-- ModelRouter._parse_llm_response.  The json.loads branch runs only
for responses whose stripped text starts with a brace; its
JSONDecodeError is the sole path into the single-step fallback.  All
other text goes through the line scanner. -/
def parseLlmResponse (jsonLoads : String → Option Parsed)
    (responseText : String) : Parsed :=
  if pyStartsWith (pyStrip responseText) "\x7b" then
    match jsonLoads responseText with
    | some p => p
    | none =>
      { interpretation := "Execute user command",
        commands :=
          [⟨"bash", pyStrip responseText, "Execute user command", "safe"⟩],
        explanation := "Executing user command as interpreted",
        risks := [] }
  else
    let lines := pySplitChar '\n' (pyStrip responseText)
    let st := lines.foldl scanLine ⟨.noSection, [], "", ""⟩
    { interpretation :=
        if st.interpText = "" then "Execute the requested command"
        else st.interpText,
      commands := st.cmds,
      explanation :=
        if st.explText = "" then "Command will be executed as requested"
        else st.explText,
      risks := [] }

/-!
Job engine: src/devos-mvp/src/daemon/models.py (Job and its mutators)
and src/devos-mvp/src/daemon/api.py (the endpoint bodies and the
background execute_command task).  Wall-clock timestamps are naturals
supplied per transition.
-/

/-- The JobStatus enum. -/
inductive JobStatus where
  | pending
  | approved
  | executing
  | completed
  | failed
  | rejected
deriving DecidableEq, Repr

/-- JobStatus .value strings. -/
def JobStatus.val : JobStatus → String
  | .pending => "pending"
  | .approved => "approved"
  | .executing => "executing"
  | .completed => "completed"
  | .failed => "failed"
  | .rejected => "rejected"

/-- The terminal states of the job state machine. -/
def JobStatus.isTerminal : JobStatus → Bool
  | .completed => true
  | .failed => true
  | .rejected => true
  | _ => false

/-- One entry of Job.logs. -/
structure LogEntry where
  timestamp : Nat
  level : String
  message : String
deriving DecidableEq, Repr

/-- The two dict shapes assigned to job.result: an execution result's
__dict__, or the rejection message dict from the approve endpoint. -/
inductive JobResultVal where
  | exec (r : CommandResult)
  | rejectedMsg (note : Option String)
deriving DecidableEq, Repr

/-- The Job dataclass (fields touched by the embedded endpoints). -/
structure Job where
  id : String
  command : String := ""
  userId : String := ""
  status : JobStatus := .pending
  context : List (String × String) := []
  result : Option JobResultVal := none
  error : Option String := none
  logs : List LogEntry := []
  progress : Int := 0
  createdAt : Nat := 0
  updatedAt : Nat := 0
  modelUsed : Option String := none
  tokensConsumed : Nat := 0
  costUsd : ℚ := 0
  requiresApproval : Bool := false
  approvedBy : Option String := none
  approvedAt : Option Nat := none
deriving DecidableEq, Repr

/-- Job.add_log. -/
def Job.addLog (now : Nat) (level message : String) (j : Job) : Job :=
  { j with logs := j.logs ++ [⟨now, level, message⟩], updatedAt := now }

/-- Job.update_progress. -/
def Job.updateProgress (now : Nat) (p : Int) (message : String) (j : Job) : Job :=
  let j' := { j with progress := max 0 (min 100 p), updatedAt := now }
  if message ≠ "" then
    j'.addLog now "INFO" ("Progress " ++ toString p ++ "%: " ++ message)
  else j'

/-- Job.set_status. -/
def Job.setStatus (now : Nat) (st : JobStatus) (message : String) (j : Job) : Job :=
  let j' := { j with status := st, updatedAt := now }
  if message ≠ "" then
    j'.addLog now "INFO" ("Status changed to " ++ st.val ++ ": " ++ message)
  else j'

/-- The outcome of model_router.process_command as consumed by
execute_command: either the parsed plan plus token usage, or the
exception text when the model invocation raises. -/
structure LlmOk where
  commands : List CommandInfo
  totalTokens : Nat := 0
deriving DecidableEq, Repr

/-- api.py execute_command, as a function of the LLM outcome: sets
Executing, runs the plan, and on any non-raising path marks the job
Completed with the execution result attached; only a raised exception
(modelled by .error) produces Failed. -/
def executeCommandJob (now : Nat) (run runPy : String → ProcBehavior)
    (vcfg : ValidatorCfg) (scfg : SandboxCfg)
    (llmOutcome : Except String LlmOk) (j : Job) : Job :=
  let j := j.setStatus now .executing "Starting command execution"
  let j := j.updateProgress now 10 "Analyzing command with LLM"
  match llmOutcome with
  | .error e =>
    let j := j.setStatus now .failed ("Execution failed: " ++ e)
    let j := { j with error := some e }
    j.addLog now "ERROR" ("Command execution failed: " ++ e)
  | .ok llm =>
    let j := { j with tokensConsumed := llm.totalTokens }
    let j := j.updateProgress now 30 "Generated execution plan"
    let j := j.updateProgress now 40 "Executing commands"
    let r := executeCmds run runPy vcfg scfg llm.commands j.userId
    let j := j.updateProgress now 90 "Processing results"
    let j := j.setStatus now .completed "Command executed successfully"
    let j := { j with result := some (.exec r) }
    j.updateProgress now 100 "Complete"

/-- The daemon's shared state: the jobs registry plus the multiset of
queued background execution tasks (ids handed to
background_tasks.add_task(execute_command, job_id)). -/
structure ApiState where
  jobs : List (String × Job)
  sched : List String
deriving DecidableEq, Repr

/-- The job built by submit_command: model and cost recorded, then
Approved when no approval is required, else Pending. -/
def submitJob (now : Nat) (id command userId : String)
    (ctx : List (String × String)) (modelName : String) (cost : ℚ)
    (reqApproval : Bool) : Job :=
  let j : Job :=
    { id := id, command := command, userId := userId, context := ctx,
      createdAt := now, updatedAt := now }
  let j := { j with modelUsed := some modelName, costUsd := cost,
                    requiresApproval := reqApproval }
  if ¬ reqApproval then
    j.setStatus now .approved "Auto-approved based on safety assessment"
  else
    j.setStatus now .pending "Waiting for user approval"

/-- submit_command: store the new job and queue execution exactly when
no approval is required (the queued notification task of the pending
path does not mutate state). -/
def submitEffect (now : Nat) (id command userId : String)
    (ctx : List (String × String)) (modelName : String) (cost : ℚ)
    (reqApproval : Bool) (s : ApiState) : ApiState :=
  { jobs := setA id (submitJob now id command userId ctx modelName cost
      reqApproval) s.jobs,
    sched := if ¬ reqApproval then id :: s.sched else s.sched }

/-- approve_command's mutation of a pending job (approve or reject).
The note-or-default of the rejection message follows Python truthiness
(an empty note also falls back). -/
def approveEffect (now : Nat) (approved : Bool) (note : Option String)
    (j : Job) : Job :=
  if approved then
    let j := j.setStatus now .approved "Approved by user"
    { j with approvedBy := some j.userId, approvedAt := some now }
  else
    let noteText :=
      match note with
      | some n => if n ≠ "" then n else "No reason provided"
      | none => "No reason provided"
    let j := j.setStatus now .rejected ("Rejected by user: " ++ noteText)
    { j with result := some (.rejectedMsg note) }

/-- The daemon's state transitions, one constructor per mutating (or
deliberately non-mutating) entry point: job submission with a fresh
uuid, approval of a pending job, the approve endpoint's 400 path on a
non-pending job, a queued execute_command task running to completion,
and the read-only endpoints.  The requires-approval flag and the LLM
outcome are free parameters, so every behaviour of the concrete
decision procedures is included. -/
inductive ApiStep : ApiState → ApiState → Prop where
  | submit (now : Nat) (id command userId : String)
      (ctx : List (String × String)) (modelName : String) (cost : ℚ)
      (reqApproval : Bool) (s : ApiState)
      (hfresh : lookupA s.jobs id = none) :
      ApiStep s (submitEffect now id command userId ctx modelName cost reqApproval s)
  | approve (now : Nat) (id : String) (approved : Bool) (note : Option String)
      (s : ApiState) (j : Job) (hj : lookupA s.jobs id = some j)
      (hp : j.status = .pending) :
      ApiStep s
        ⟨setA id (approveEffect now approved note j) s.jobs,
          if approved then id :: s.sched else s.sched⟩
  | approveNotPending (id : String) (s : ApiState) (j : Job)
      (hj : lookupA s.jobs id = some j) (hnp : j.status ≠ .pending) :
      ApiStep s s
  | runExecution (now : Nat) (run runPy : String → ProcBehavior)
      (vcfg : ValidatorCfg) (scfg : SandboxCfg)
      (llmOutcome : Except String LlmOk) (id : String) (s : ApiState)
      (j : Job) (hs : id ∈ s.sched) (hj : lookupA s.jobs id = some j) :
      ApiStep s
        ⟨setA id (executeCommandJob now run runPy vcfg scfg llmOutcome j) s.jobs,
          s.sched.erase id⟩
  | readOnly (s : ApiState) : ApiStep s s

/-- States reachable from the empty daemon state. -/
inductive ApiReachable : ApiState → Prop where
  | init : ApiReachable ⟨[], []⟩
  | step {s s' : ApiState} : ApiReachable s → ApiStep s s' → ApiReachable s'

/-- The scheduling discipline: queued execution ids are distinct and
each points at a job in the Approved state. -/
def SchedInv (s : ApiState) : Prop :=
  s.sched.Nodup ∧
    ∀ id ∈ s.sched, ∃ j, lookupA s.jobs id = some j ∧ j.status = .approved

/-!
Shared lemmas about the embedding.
-/

/-- Looking a key up after a dict assignment. -/
theorem lookupA_setA {α : Type} (k k' : String) (v : α)
    (l : List (String × α)) :
    lookupA (setA k v l) k' = if k = k' then some v else lookupA l k' := rfl

/-- A deleted key is gone. -/
theorem lookupA_removeA_self {α : Type} (k : String) (l : List (String × α)) :
    lookupA (removeA k l) k = none := by
  induction l with
  | nil => rfl
  | cons p t ih =>
    by_cases h : p.1 = k
    · simpa [removeA, h] using ih
    · simpa [removeA, lookupA, h] using ih

/-- add_log does not change the status. -/
theorem Job.addLog_status (now : Nat) (lvl msg : String) (j : Job) :
    (j.addLog now lvl msg).status = j.status := rfl

/-- update_progress does not change the status. -/
theorem Job.updateProgress_status (now : Nat) (p : Int) (msg : String) (j : Job) :
    (j.updateProgress now p msg).status = j.status := by
  unfold Job.updateProgress
  split <;> rfl

/-- set_status sets exactly the requested status. -/
theorem Job.setStatus_status (now : Nat) (st : JobStatus) (msg : String) (j : Job) :
    (j.setStatus now st msg).status = st := by
  unfold Job.setStatus
  split <;> rfl

/-- Updating the result field does not change the status. -/
theorem Job.status_result_update (j : Job) (x : Option JobResultVal) :
    ({ j with result := x } : Job).status = j.status := rfl

/-- Updating the error field does not change the status. -/
theorem Job.status_error_update (j : Job) (x : Option String) :
    ({ j with error := x } : Job).status = j.status := rfl

/-- execute_command always ends in Completed when the model call
returns, and in Failed when it raises. -/
theorem executeCommandJob_status (now : Nat) (run runPy : String → ProcBehavior)
    (vcfg : ValidatorCfg) (scfg : SandboxCfg)
    (llmOutcome : Except String LlmOk) (j : Job) :
    (executeCommandJob now run runPy vcfg scfg llmOutcome j).status =
      match llmOutcome with
      | .ok _ => .completed
      | .error _ => .failed := by
  cases llmOutcome with
  | error e =>
    show (Job.addLog _ _ _ _).status = _
    rw [Job.addLog_status, Job.status_error_update, Job.setStatus_status]
  | ok llm =>
    show (Job.updateProgress _ _ _ _).status = _
    rw [Job.updateProgress_status, Job.status_result_update, Job.setStatus_status]

/-!
Claim theorems.
-/

/-- C6: for every command and context, the risk assessment's overall
score is the maximum of the four sub-scores (base, pattern, context,
path), never their sum, and the reported level is the name of that
score. -/
theorem C6_score_is_max_of_subscores (command : String) (ctx : SysCtx) :
    (assessCommandRisk command ctx).score =
      max (assessBaseCommandRisk command)
        (max (assessPatternRisk command)
          (max (assessContextRisk command ctx) (assessPathRisk command))) ∧
    (assessCommandRisk command ctx).level =
      riskLevelName ((assessCommandRisk command ctx).score) := by
  constructor
  · simp only [assessCommandRisk]
  · simp only [assessCommandRisk]

/-- C4 counterexample: the command "sudo ls" begins with the
privilege-elevation prefix "sudo ", yet its base sub-score is 0 (safe),
because the table lookup on the stripped head token "ls" runs before
the sudo minimum. -/
theorem C4_counterexample :
    assessBaseCommandRisk "sudo ls" = 0 ∧ ¬ 3 ≤ assessBaseCommandRisk "sudo ls" := by
  constructor
  · decide
  · decide

/-- C4 amended: for a command whose stripped text begins with "sudo ",
the base sub-score is at least high (3) exactly when the extracted head
token (after stripping the prefix) is nonempty and absent from the
command-risk table; when the head token is in the table the base score
is that token's table level (so "sudo ls" scores safe), and an empty
head token scores 1. -/
theorem C4_amended_sudo_base_risk (command : String)
    (hsudo : pyStartsWith (pyStrip command) "sudo " = true) :
    (extractMainCommand command = "" → assessBaseCommandRisk command = 1) ∧
    (∀ lvl, lookupA commandRisks (extractMainCommand command) = some lvl →
      assessBaseCommandRisk command = (lookupA riskLevels lvl).getD 0) ∧
    (extractMainCommand command ≠ "" →
      lookupA commandRisks (extractMainCommand command) = none →
      3 ≤ assessBaseCommandRisk command) := by
  have hsudo2 : ("sudo ".toList.isPrefixOf (trimL command.toList)) = true := by
    simpa [pyStartsWith, pyStrip] using hsudo
  have hmain : extractMainCommand command = String.mk (extractMainL command.toList) := rfl
  refine ⟨?_, ?_, ?_⟩
  · intro hempty
    have h0 : extractMainL command.toList = [] := by
      have hd := congrArg String.data hempty
      simpa [extractMainCommand] using hd
    rw [assessBaseCommandRisk, assessBaseCommandRiskL, assessBaseCommandRiskFuel]
    simp only [h0]
    rfl
  · intro lvl hlvl
    have hne0 : (extractMainL command.toList).isEmpty = false := by
      cases hb : (extractMainL command.toList).isEmpty
      · rfl
      · exfalso
        have h0 : extractMainL command.toList = [] := List.isEmpty_iff.mp hb
        rw [hmain, h0] at hlvl
        have hx : lookupA commandRisks (String.mk []) = none := rfl
        rw [hx] at hlvl
        exact Option.noConfusion hlvl
    have hlvl2 : lookupA commandRisks (String.mk (extractMainL command.toList)) = some lvl := by
      rw [← hmain]; exact hlvl
    rw [assessBaseCommandRisk, assessBaseCommandRiskL, assessBaseCommandRiskFuel,
      if_neg (by rw [hne0]; exact Bool.false_ne_true), hlvl2]
  · intro hne hnone
    have hne0 : (extractMainL command.toList).isEmpty = false := by
      cases hb : (extractMainL command.toList).isEmpty
      · rfl
      · exfalso
        exact hne (by rw [hmain, List.isEmpty_iff.mp hb])
    have hnone2 : lookupA commandRisks (String.mk (extractMainL command.toList)) = none := by
      rw [← hmain]; exact hnone
    rw [assessBaseCommandRisk, assessBaseCommandRiskL, assessBaseCommandRiskFuel,
      if_neg (by rw [hne0]; exact Bool.false_ne_true)]
    simp only [hnone2, if_pos hsudo2]
    exact le_max_left 3 _

/-- C4 amended, witnessed at "sudo unknowncmd99": the head token is
unknown, so the base sub-score is at least 3. -/
theorem C4_amended_witness :
    pyStartsWith (pyStrip "sudo unknowncmd99") "sudo " = true ∧
    extractMainCommand "sudo unknowncmd99" ≠ "" ∧
    lookupA commandRisks (extractMainCommand "sudo unknowncmd99") = none ∧
    3 ≤ assessBaseCommandRisk "sudo unknowncmd99" := by
  refine ⟨by decide, by decide, by decide, ?_⟩
  exact (C4_amended_sudo_base_risk "sudo unknowncmd99" (by decide)).2.2
    (by decide) (by decide)

/-- C9: with no exact fingerprint match, the pattern lookup on the
head-command token returns always_approve with confidence = rate when
total >= 3 and rate >= 0.8, always_deny with confidence = 1 - rate when
total >= 3 and rate <= 0.2, and none otherwise (total < 3 or a rate
strictly between the thresholds). -/
theorem C9_pattern_threshold_lookup
    (cp : List (String × List (String × PatternCounts)))
    (userId command : String) (up : List (String × PatternCounts))
    (pc : PatternCounts)
    (hu : lookupA cp userId = some up)
    (hp : lookupA up (extractMainCommand command) = some pc) :
    (pc.total ≥ 3 → (pc.approved : ℚ) / (pc.total : ℚ) ≥ 4/5 →
      findPatternMatch cp userId command =
        some (.alwaysApprove ((pc.approved : ℚ) / (pc.total : ℚ))
          (basedOnStr (extractMainCommand command) pc.total))) ∧
    (pc.total ≥ 3 → (pc.approved : ℚ) / (pc.total : ℚ) ≤ 1/5 →
      findPatternMatch cp userId command =
        some (.alwaysDeny (1 - (pc.approved : ℚ) / (pc.total : ℚ))
          (basedOnStr (extractMainCommand command) pc.total))) ∧
    ((¬ pc.total ≥ 3 ∨
        (1/5 < (pc.approved : ℚ) / (pc.total : ℚ) ∧
          (pc.approved : ℚ) / (pc.total : ℚ) < 4/5)) →
      findPatternMatch cp userId command = none) := by
  refine ⟨?_, ?_, ?_⟩
  · intro ht hr
    simp only [findPatternMatch, hu, hp]
    split_ifs with h1 h2 h3 <;>
      first | rfl | (exfalso; omega) | (exfalso; linarith)
  · intro ht hr
    simp only [findPatternMatch, hu, hp]
    split_ifs with h1 h2 h3 <;>
      first | rfl | (exfalso; omega) | (exfalso; linarith)
  · intro hd
    simp only [findPatternMatch, hu, hp]
    rcases hd with ht | ⟨hlo, hhi⟩
    · split_ifs with h1 h2 h3 <;> first | rfl | (exfalso; omega)
    · split_ifs with h1 h2 h3 <;> first | rfl | (exfalso; linarith)

/-- C9 witnessed at the claim's three boundary states: total=3
approved=3 gives always_approve with confidence 3/3 = 1.0, total=3
approved=0 gives always_deny, and total=2 gives none. -/
theorem C9_witness :
    findPatternMatch [("u", [("pip", ⟨3, 0, 3⟩)])] "u" "pip install requests" =
      some (.alwaysApprove (((3 : Nat) : ℚ) / ((3 : Nat) : ℚ))
        (basedOnStr (extractMainCommand "pip install requests") 3)) ∧
    findPatternMatch [("u", [("pip", ⟨0, 3, 3⟩)])] "u" "pip install requests" =
      some (.alwaysDeny (1 - ((0 : Nat) : ℚ) / ((3 : Nat) : ℚ))
        (basedOnStr (extractMainCommand "pip install requests") 3)) ∧
    findPatternMatch [("u", [("pip", ⟨2, 2, 2⟩)])] "u" "pip install requests" = none := by
  refine ⟨?_, ?_, ?_⟩
  · exact (C9_pattern_threshold_lookup [("u", [("pip", ⟨3, 0, 3⟩)])] "u"
      "pip install requests" [("pip", ⟨3, 0, 3⟩)] ⟨3, 0, 3⟩
      (by decide) (by decide)).1 (by norm_num) (by norm_num)
  · exact (C9_pattern_threshold_lookup [("u", [("pip", ⟨0, 3, 3⟩)])] "u"
      "pip install requests" [("pip", ⟨0, 3, 3⟩)] ⟨0, 3, 3⟩
      (by decide) (by decide)).2.1 (by norm_num) (by norm_num)
  · exact (C9_pattern_threshold_lookup [("u", [("pip", ⟨2, 2, 2⟩)])] "u"
      "pip install requests" [("pip", ⟨2, 2, 2⟩)] ⟨2, 2, 2⟩
      (by decide) (by decide)).2.2 (Or.inl (by norm_num))

/-- Spec-words decision rule for C2 (refinement reference): approval is
not required exactly in the claim's two granted cases. -/
def specRequiresApproval (sha : String → String) (prefs : PrefState)
    (autoApproveSafe : Bool) (command : String) (ctx : SysCtx)
    (userId : String) : Bool :=
  let riskLevel := (assessCommandRisk command ctx).level
  let userPref := getCommandPreference sha prefs userId command
  !(autoApproveSafe && (riskLevel == "safe") && !(optPrefDeny userPref) ||
    optPrefApprove userPref && !(riskLevel == "high" || riskLevel == "critical"))

/-- C2 counterexample: with auto-approve-safe disabled and no stored
preference, the safe-risk command "ls -la" is NOT granted by either of
the claim's two cases (specRequiresApproval = true), yet
requires_approval returns false, because the final line returns
level != safe. -/
theorem C2_counterexample :
    requiresApproval (fun _ => "") emptyPrefState false "ls -la" {} "user123" = false ∧
    specRequiresApproval (fun _ => "") emptyPrefState false "ls -la" {} "user123" = true := by
  constructor
  · decide
  · decide

/-- C2 amended: requires_approval returns false exactly in three
cases — (auto-approve-safe on, risk safe, no explicit deny), or
(the first branch not taken, preference always_approve, risk not
high/critical), or (the first branch not taken, no always_approve
preference, and risk level safe — in particular with auto-approve-safe
disabled and no preference, a safe command still returns false). -/
theorem C2_amended_requires_approval_iff (sha : String → String)
    (prefs : PrefState) (auto : Bool) (command : String) (ctx : SysCtx)
    (userId : String) :
    requiresApproval sha prefs auto command ctx userId = false ↔
      ((auto = true ∧ (assessCommandRisk command ctx).level = "safe" ∧
          optPrefDeny (getCommandPreference sha prefs userId command) = false) ∨
        (¬ (auto = true ∧ (assessCommandRisk command ctx).level = "safe") ∧
          optPrefApprove (getCommandPreference sha prefs userId command) = true ∧
          (assessCommandRisk command ctx).level ≠ "high" ∧
          (assessCommandRisk command ctx).level ≠ "critical") ∨
        (¬ (auto = true ∧ (assessCommandRisk command ctx).level = "safe") ∧
          optPrefApprove (getCommandPreference sha prefs userId command) = false ∧
          (assessCommandRisk command ctx).level = "safe")) := by
  simp only [requiresApproval]
  by_cases h1 : (auto && ((assessCommandRisk command ctx).level == "safe")) = true
  · rw [if_pos h1]
    have hauto : auto = true ∧ (assessCommandRisk command ctx).level = "safe" := by
      simpa [Bool.and_eq_true, beq_iff_eq] using h1
    simp [hauto.1, hauto.2]
  · rw [if_neg h1]
    have hns : ¬ (auto = true ∧ (assessCommandRisk command ctx).level = "safe") := by
      intro hc
      exact h1 (by simp [hc.1, hc.2])
    by_cases h2 : optPrefApprove (getCommandPreference sha prefs userId command) = true
    · rw [if_pos h2]
      simp [hns, h2, Bool.or_eq_false_iff, beq_eq_false_iff_ne]
      intro ha hs _
      exact absurd ⟨ha, hs⟩ hns
    · rw [if_neg h2]
      have h2f : optPrefApprove (getCommandPreference sha prefs userId command) = false :=
        Bool.eq_false_iff.mpr h2
      simp [hns, h2f, bne]
      intro _ hs _
      exact hs

/-- The validator built from default security config. -/
def defaultValidatorCfg : ValidatorCfg :=
  ⟨defaultAllowedCommands, defaultBlockedCommands⟩

/-- C7 counterexample: the bash step "| cat" passes validation
(valid=true), but its extracted leading token is the empty string,
which is not a member of the allow list — the allowlist check is
skipped for an empty token by Python truthiness. -/
theorem C7_counterexample :
    (validateCommand defaultValidatorCfg { command := "| cat" }).valid = true ∧
    extractMainCommand "| cat" = "" ∧
    ¬ extractMainCommand "| cat" ∈ defaultAllowedCommands := by
  refine ⟨by decide, by decide, by decide⟩

/-- C7 amended: whenever validate_command accepts a bash step, no
configured blocked substring occurs case-insensitively in the command
text, and the extracted leading token is either empty or a member of
the configured allow list. -/
theorem C7_amended_valid_implies_allowlist_or_empty (cfg : ValidatorCfg)
    (ci : CommandInfo) (hbash : ci.type = "bash")
    (hvalid : (validateCommand cfg ci).valid = true) :
    (∀ b ∈ cfg.blockedCommands,
        pyContains (pyLower ci.command) (pyLower b) = false) ∧
    (extractMainCommand ci.command = "" ∨
      extractMainCommand ci.command ∈ cfg.allowedCommands) := by
  unfold validateCommand at hvalid
  rw [hbash] at hvalid
  split at hvalid
  · simp at hvalid
  rw [if_pos rfl] at hvalid
  unfold validateBashCommand at hvalid
  split at hvalid
  case h_1 => simp at hvalid
  case h_2 hfind =>
  by_cases hd : (dangerousPatterns.any fun p => reSearchIC p ci.command) = true
  · rw [if_pos hd] at hvalid
    simp at hvalid
  rw [if_neg hd] at hvalid
  by_cases ha : extractMainCommand ci.command ≠ "" ∧
      extractMainCommand ci.command ∉ cfg.allowedCommands
  · rw [if_pos ha] at hvalid
    simp at hvalid
  · constructor
    · intro b hb
      have hnb := List.find?_eq_none.mp hfind b hb
      exact Bool.eq_false_iff.mpr hnb
    · rcases not_and_or.mp ha with h | h
      · exact Or.inl (not_not.mp h)
      · exact Or.inr (not_not.mp h)

/-- C7 amended, witnessed on "ls -la" with the default configuration:
validation passes and the token "ls" is in the allow list. -/
theorem C7_amended_witness :
    (validateCommand defaultValidatorCfg { command := "ls -la" }).valid = true ∧
    (extractMainCommand "ls -la" = "" ∨
      extractMainCommand "ls -la" ∈ defaultAllowedCommands) :=
  ⟨by decide,
    (C7_amended_valid_implies_allowlist_or_empty defaultValidatorCfg
      { command := "ls -la" } rfl (by decide)).2⟩

/-- C8: approving a pending job with remember=true leaves the
preference store's state for the approving user untouched — the pattern
counters and approval history are unchanged, and the fingerprint map
under the user's id has the same contents.  The endpoint passes
job.command into the user_id position and the context dict into the
command position, so fingerprint hashing raises inside the store's
blanket except and only a (possibly empty) bucket keyed by the command
text is created. -/
theorem C8_swapped_learn_leaves_user_state (sha : String → String)
    (now : Nat) (learnFlag : Bool) (s : PrefState) (jobCommand : String)
    (jobContext : List (String × String)) (jobUserId : String) :
    (approveRememberEffect sha now learnFlag s jobCommand jobContext
        jobUserId).commandPatterns = s.commandPatterns ∧
    (approveRememberEffect sha now learnFlag s jobCommand jobContext
        jobUserId).approvalHistory = s.approvalHistory ∧
    (lookupA (approveRememberEffect sha now learnFlag s jobCommand jobContext
        jobUserId).preferences jobUserId).getD [] =
      (lookupA s.preferences jobUserId).getD [] := by
  unfold approveRememberEffect managerLearnPreference
  cases learnFlag with
  | false => exact ⟨rfl, rfl, rfl⟩
  | true =>
    unfold learnPreference
    by_cases hn : (lookupA s.preferences jobCommand).isNone = true
    · refine ⟨by rw [if_pos hn]; rfl, by rw [if_pos hn]; rfl, ?_⟩
      rw [if_pos hn]
      show (lookupA (setA jobCommand [] s.preferences) jobUserId).getD [] = _
      rw [lookupA_setA]
      by_cases he : jobCommand = jobUserId
      · rw [if_pos he, ← he, Option.isNone_iff_eq_none.mp hn]
        rfl
      · rw [if_neg he]
    · refine ⟨by rw [if_neg hn]; rfl, by rw [if_neg hn]; rfl, by rw [if_neg hn]; rfl⟩

/-- C10: once process_approval_response has returned a terminal result
for an approval id (a success dict or the expired error — anything but
not-found), the entry is deleted, so a second respond call on the same
id with any decision returns the approval-not-found error and leaves
the pending table and preference store exactly as they were. -/
theorem C10_respond_at_most_once (sha : String → String) (learnFlag : Bool)
    (now1 now2 : Nat) (pending : List (String × ApprovalData))
    (prefs : PrefState) (approvalId : String) (r1 r2 : RespInput)
    (hterm : (processApprovalResponse sha learnFlag now1 pending prefs
        approvalId r1).resp ≠ .notFound) :
    processApprovalResponse sha learnFlag now2
        (processApprovalResponse sha learnFlag now1 pending prefs
          approvalId r1).pending
        (processApprovalResponse sha learnFlag now1 pending prefs
          approvalId r1).prefs
        approvalId r2 =
      ⟨.notFound,
        (processApprovalResponse sha learnFlag now1 pending prefs
          approvalId r1).pending,
        (processApprovalResponse sha learnFlag now1 pending prefs
          approvalId r1).prefs⟩ := by
  cases hl : lookupA pending approvalId with
  | none =>
    exfalso
    apply hterm
    simp only [processApprovalResponse, hl]
  | some data =>
    have hp : (processApprovalResponse sha learnFlag now1 pending prefs
        approvalId r1).pending = removeA approvalId pending := by
      simp only [processApprovalResponse, hl]
      by_cases he : now1 > data.expiresAt
      · rw [if_pos he]
      · rw [if_neg he]
    rw [hp]
    simp only [processApprovalResponse, lookupA_removeA_self]

/-- Concrete risk snapshot carried by the C10 witness entry. -/
def c10Risk : RiskReport :=
  { level := "medium", score := 2,
    factors := ⟨"medium", "safe", "safe", "safe"⟩,
    reasons := [], recommendations := [] }

/-- Concrete pending approval for the C10 witness. -/
def c10Data : ApprovalData :=
  { command := "rm file.txt", userId := "user123", context := .pdict [],
    risk := c10Risk, status := .pending, createdAt := 0, expiresAt := 10 }

/-- C10 witnessed on one pending entry: the first respond succeeds, the
second returns not-found and changes nothing. -/
theorem C10_witness :
    (processApprovalResponse (fun _ => "") true 0 [("a1", c10Data)]
        emptyPrefState "a1" ⟨true, false, "ok"⟩).resp ≠ .notFound ∧
    processApprovalResponse (fun _ => "") true 1
        (processApprovalResponse (fun _ => "") true 0 [("a1", c10Data)]
          emptyPrefState "a1" ⟨true, false, "ok"⟩).pending
        (processApprovalResponse (fun _ => "") true 0 [("a1", c10Data)]
          emptyPrefState "a1" ⟨true, false, "ok"⟩).prefs
        "a1" ⟨false, false, "again"⟩ =
      ⟨.notFound,
        (processApprovalResponse (fun _ => "") true 0 [("a1", c10Data)]
          emptyPrefState "a1" ⟨true, false, "ok"⟩).pending,
        (processApprovalResponse (fun _ => "") true 0 [("a1", c10Data)]
          emptyPrefState "a1" ⟨true, false, "ok"⟩).prefs⟩ :=
  ⟨by decide,
    C10_respond_at_most_once (fun _ => "") true 0 1 [("a1", c10Data)]
      emptyPrefState "a1" ⟨true, false, "ok"⟩ ⟨false, false, "again"⟩
      (by decide)⟩

/-- A line that switches the scanner into the commands section. -/
def triggersCommands (rawLine : String) : Bool :=
  pyStartsWith (pyStrip rawLine) "Commands:" ||
    pyStartsWith (pyStrip rawLine) "```bash"

/-- Outside the commands section, a non-triggering line neither adds a
command step nor enters the commands section. -/
theorem scanLine_no_commands (st : ScanState) (line : String)
    (hsect : st.sect ≠ .commands) (hline : triggersCommands line = false) :
    (scanLine st line).cmds = st.cmds ∧ (scanLine st line).sect ≠ .commands := by
  have htr : ¬ ((pyStartsWith (pyStrip line) "Commands:" ||
      pyStartsWith (pyStrip line) "```bash") = true) := by
    unfold triggersCommands at hline
    rw [hline]
    exact Bool.false_ne_true
  cases hsec : st.sect with
  | commands => exact absurd hsec hsect
  | noSection =>
    unfold scanLine
    by_cases h0 : pyStrip line = ""
    · rw [if_pos h0]
      exact ⟨rfl, hsect⟩
    rw [if_neg h0, if_neg htr]
    by_cases h1 : pyStartsWith (pyStrip line) "Interpretation:" = true
    · rw [if_pos h1]
      exact ⟨rfl, by simp⟩
    rw [if_neg h1]
    by_cases h2 : pyStartsWith (pyStrip line) "Explanation:" = true
    · rw [if_pos h2]
      exact ⟨rfl, by simp⟩
    rw [if_neg h2]
    by_cases h3 : pyStartsWith (pyStrip line) "```" = true
    · rw [if_pos h3]
      exact ⟨rfl, by simp⟩
    rw [if_neg h3, hsec]
    refine ⟨rfl, fun hc => ?_⟩
    first
    | exact hsect hc
    | simp at hc
  | interp =>
    unfold scanLine
    by_cases h0 : pyStrip line = ""
    · rw [if_pos h0]
      exact ⟨rfl, hsect⟩
    rw [if_neg h0, if_neg htr]
    by_cases h1 : pyStartsWith (pyStrip line) "Interpretation:" = true
    · rw [if_pos h1]
      exact ⟨rfl, by simp⟩
    rw [if_neg h1]
    by_cases h2 : pyStartsWith (pyStrip line) "Explanation:" = true
    · rw [if_pos h2]
      exact ⟨rfl, by simp⟩
    rw [if_neg h2]
    by_cases h3 : pyStartsWith (pyStrip line) "```" = true
    · rw [if_pos h3]
      exact ⟨rfl, by simp⟩
    rw [if_neg h3, hsec]
    refine ⟨rfl, fun hc => ?_⟩
    first
    | exact hsect hc
    | simp at hc
  | expl =>
    unfold scanLine
    by_cases h0 : pyStrip line = ""
    · rw [if_pos h0]
      exact ⟨rfl, hsect⟩
    rw [if_neg h0, if_neg htr]
    by_cases h1 : pyStartsWith (pyStrip line) "Interpretation:" = true
    · rw [if_pos h1]
      exact ⟨rfl, by simp⟩
    rw [if_neg h1]
    by_cases h2 : pyStartsWith (pyStrip line) "Explanation:" = true
    · rw [if_pos h2]
      exact ⟨rfl, by simp⟩
    rw [if_neg h2]
    by_cases h3 : pyStartsWith (pyStrip line) "```" = true
    · rw [if_pos h3]
      exact ⟨rfl, by simp⟩
    rw [if_neg h3, hsec]
    refine ⟨rfl, fun hc => ?_⟩
    first
    | exact hsect hc
    | simp at hc

/-- Folding the scanner over trigger-free lines keeps the command list
unchanged and stays out of the commands section. -/
theorem scanFold_no_commands (lines : List String) :
    ∀ st : ScanState, st.sect ≠ .commands →
      (∀ l ∈ lines, triggersCommands l = false) →
      (lines.foldl scanLine st).cmds = st.cmds ∧
        (lines.foldl scanLine st).sect ≠ .commands := by
  induction lines with
  | nil =>
    intro st h _
    exact ⟨rfl, h⟩
  | cons l ls ih =>
    intro st hsect hl
    have h1 := scanLine_no_commands st l hsect (hl l (List.mem_cons_self l ls))
    have h2 := ih (scanLine st l) h1.2 (fun x hx => hl x (List.mem_cons_of_mem l hx))
    rw [List.foldl_cons]
    exact ⟨h2.1.trans h1.1, h2.2⟩

/-- C5 amended: a model response that (stripped) does not start with a
brace never reaches the json fallback; if additionally no line starts a
scanner commands section ("Commands:" or a bash fence), the parsed plan
contains NO command steps at all.  The wrap-the-whole-response-as-one-
safe-shell-step fallback fires only for brace-prefixed text that fails
JSON parsing. -/
theorem C5_amended_scanner_no_commands (jsonLoads : String → Option Parsed)
    (responseText : String)
    (hbrace : pyStartsWith (pyStrip responseText) "\x7b" = false)
    (hlines : ∀ l ∈ pySplitChar '\n' (pyStrip responseText),
      triggersCommands l = false) :
    (parseLlmResponse jsonLoads responseText).commands = [] := by
  unfold parseLlmResponse
  rw [if_neg (by rw [hbrace]; exact Bool.false_ne_true)]
  exact (scanFold_no_commands (pySplitChar '\n' (pyStrip responseText))
    ⟨.noSection, [], "", ""⟩ (by simp) hlines).1

/-- C5 counterexample: for the bare text "echo hi" (not valid JSON, not
recognized by the scanner) the parsed plan has an empty command list —
not the single safe shell step carrying the whole response that the
claim requires. -/
theorem C5_counterexample :
    (parseLlmResponse (fun _ => none) "echo hi").commands = [] ∧
    (parseLlmResponse (fun _ => none) "echo hi").commands ≠
      [⟨"bash", "echo hi", "Execute user command", "safe"⟩] := by
  constructor
  · decide
  · decide

/-- C5 amended, witnessed on "echo hi": no brace prefix, no scanner
trigger, empty plan. -/
theorem C5_amended_witness :
    pyStartsWith (pyStrip "echo hi") "\x7b" = false ∧
    (parseLlmResponse (fun _ => none) "echo hi").commands = [] :=
  ⟨by decide,
    C5_amended_scanner_no_commands (fun _ => none) "echo hi"
      (by decide) (by decide)⟩

/-- update_progress does not change the result field. -/
theorem Job.updateProgress_result (now : Nat) (p : Int) (msg : String) (j : Job) :
    (j.updateProgress now p msg).result = j.result := by
  unfold Job.updateProgress
  split <;> rfl

/-- When the model call returns, execute_command stores the execution
result of the parsed plan (run under the job's user id) on the job. -/
theorem executeCommandJob_ok_result (now : Nat)
    (run runPy : String → ProcBehavior) (vcfg : ValidatorCfg)
    (scfg : SandboxCfg) (llm : LlmOk) (j : Job) :
    (executeCommandJob now run runPy vcfg scfg (.ok llm) j).result =
      some (.exec (executeCmds run runPy vcfg scfg llm.commands j.userId)) := by
  show (Job.updateProgress _ _ _ _).result = _
  rw [Job.updateProgress_result]
  rfl

/-- Subprocess oracle for the C1 scenario: every spawned command runs
for 999 seconds (sleep 999) and would exit 0. -/
def c1Run : String → ProcBehavior := fun _ => ⟨999, "", "", 0⟩

/-- Sandbox configuration with max_execution_time = 1. -/
def c1Scfg : SandboxCfg := { maxExecutionTime := 1 }

/-- Validator configuration whose allow list admits sleep. -/
def c1Vcfg : ValidatorCfg :=
  ⟨"sleep" :: defaultAllowedCommands, defaultBlockedCommands⟩

/-- The plan step of the C1 scenario. -/
def c1Step : CommandInfo := { command := "sleep 999" }

/-- The approved job executing the C1 scenario. -/
def c1Job : Job :=
  { id := "j1", command := "sleep 999", userId := "user123",
    status := .approved }

/-- C1 counterexample: with "sleep 999" and max_execution_time = 1 the
step result does record exit code 124, success=false and a timeout
error — but the owning Job ends in Completed, not Failed, because
execute_command marks every non-raising run Completed. -/
theorem C1_counterexample :
    (executeBashCommand c1Run c1Scfg "sleep 999").exitCode = 124 ∧
    (executeBashCommand c1Run c1Scfg "sleep 999").success = false ∧
    pyContains (executeBashCommand c1Run c1Scfg "sleep 999").error
      "timed out" = true ∧
    (executeCommandJob 5 c1Run c1Run c1Vcfg c1Scfg
      (.ok ⟨[c1Step], 0⟩) c1Job).status = JobStatus.completed ∧
    JobStatus.completed ≠ JobStatus.failed := by
  refine ⟨by decide, by decide, by decide, by decide, by decide⟩

/-- C1 amended: whenever a validated bash step's subprocess outlives
max_execution_time, the step's result records exit code 124 with
success=false and the timeout message, the plan-level result for that
step has success=false, and the owning Job transitions to Completed
with that failed execution result stored in job.result; the Job
transitions to Failed only when the pipeline raises an exception. -/
theorem C1_amended_timeout_step_and_job_completed
    (run runPy : String → ProcBehavior) (scfg : SandboxCfg)
    (vcfg : ValidatorCfg) (ci : CommandInfo) (rcmd : String)
    (hbash : ci.type = "bash")
    (hval : (validateCommand vcfg ci).valid = true)
    (hsand : (if scfg.sandboxEnabled then applySandboxRestrictions ci.command
        else .ok ci.command) = .ok rcmd)
    (htime : (run rcmd).duration > scfg.maxExecutionTime) :
    (executeBashCommand run scfg ci.command).exitCode = 124 ∧
    (executeBashCommand run scfg ci.command).success = false ∧
    (executeBashCommand run scfg ci.command).error =
      "Command timed out after " ++ toString scfg.maxExecutionTime ++
        " seconds" ∧
    (∀ userId : String,
      (executeCmds run runPy vcfg scfg [ci] userId).success = false) ∧
    (∀ (now t : Nat) (j : Job),
      (executeCommandJob now run runPy vcfg scfg (.ok ⟨[ci], t⟩) j).status =
        .completed ∧
      (executeCommandJob now run runPy vcfg scfg (.ok ⟨[ci], t⟩) j).result =
        some (.exec (executeCmds run runPy vcfg scfg [ci] j.userId))) ∧
    (∀ (now : Nat) (e : String) (j : Job),
      (executeCommandJob now run runPy vcfg scfg (.error e) j).status =
        .failed) := by
  have hb : executeBashCommand run scfg ci.command =
      { success := false,
        error := "Command timed out after " ++
          toString scfg.maxExecutionTime ++ " seconds",
        exitCode := 124,
        executionTime := scfg.maxExecutionTime * 1000 } := by
    unfold executeBashCommand
    simp only [hsand]
    rw [if_pos htime]
  have hsingle : executeSingleCommand run runPy scfg ci =
      { success := false,
        error := "Command timed out after " ++
          toString scfg.maxExecutionTime ++ " seconds",
        exitCode := 124,
        executionTime := scfg.maxExecutionTime * 1000 } := by
    unfold executeSingleCommand
    rw [if_pos hbash]
    exact hb
  have hvnot : ¬ ¬ ((validateCommand vcfg ci).valid = true) :=
    fun hc => hc hval
  have hloop : ∀ userId : String,
      (executeCmds run runPy vcfg scfg [ci] userId).success = false := by
    intro userId
    show (executeLoop run runPy vcfg scfg [ci] {}).success = false
    by_cases hd : ci.safetyLevel = "destructive" <;>
      simp [executeLoop, hsingle, hvnot, hd]
  refine ⟨by rw [hb], by rw [hb], by rw [hb], hloop, ?_, ?_⟩
  · intro now t j
    refine ⟨executeCommandJob_status now run runPy vcfg scfg (.ok ⟨[ci], t⟩) j, ?_⟩
    exact executeCommandJob_ok_result now run runPy vcfg scfg ⟨[ci], t⟩ j
  · intro now e j
    exact executeCommandJob_status now run runPy vcfg scfg (.error e) j

/-- C1 amended, witnessed on the claim's own scenario (sleep 999,
max_execution_time = 1): step exit 124, plan success=false, Job
Completed with the failed result stored. -/
theorem C1_amended_witness :
    (validateCommand c1Vcfg c1Step).valid = true ∧
    (c1Run "sleep 999").duration > c1Scfg.maxExecutionTime ∧
    (executeBashCommand c1Run c1Scfg "sleep 999").exitCode = 124 ∧
    (executeCmds c1Run c1Run c1Vcfg c1Scfg [c1Step] "user123").success = false ∧
    (executeCommandJob 5 c1Run c1Run c1Vcfg c1Scfg
      (.ok ⟨[c1Step], 0⟩) c1Job).status = .completed ∧
    (executeCommandJob 5 c1Run c1Run c1Vcfg c1Scfg
      (.ok ⟨[c1Step], 0⟩) c1Job).result =
      some (.exec (executeCmds c1Run c1Run c1Vcfg c1Scfg [c1Step]
        c1Job.userId)) :=
  ⟨by decide, by decide,
    (C1_amended_timeout_step_and_job_completed c1Run c1Run c1Scfg c1Vcfg
      c1Step "sleep 999" rfl (by decide) (by rfl) (by decide)).1,
    (C1_amended_timeout_step_and_job_completed c1Run c1Run c1Scfg c1Vcfg
      c1Step "sleep 999" rfl (by decide) (by rfl) (by decide)).2.2.2.1 "user123",
    ((C1_amended_timeout_step_and_job_completed c1Run c1Run c1Scfg c1Vcfg
      c1Step "sleep 999" rfl (by decide) (by rfl) (by decide)).2.2.2.2.1
      5 0 c1Job).1,
    ((C1_amended_timeout_step_and_job_completed c1Run c1Run c1Scfg c1Vcfg
      c1Step "sleep 999" rfl (by decide) (by rfl) (by decide)).2.2.2.2.1
      5 0 c1Job).2⟩

/-- Updating approvedBy/approvedAt does not change the status. -/
theorem Job.status_approved_update (j : Job) (x : Option String) (y : Option Nat) :
    ({ j with approvedBy := x, approvedAt := y } : Job).status = j.status := rfl

/-- The status of a freshly submitted job. -/
theorem submitJob_status (now : Nat) (id command userId : String)
    (ctx : List (String × String)) (modelName : String) (cost : ℚ)
    (req : Bool) :
    (submitJob now id command userId ctx modelName cost req).status =
      if req then .pending else .approved := by
  unfold submitJob
  by_cases h : req = true
  · simp only [h]
    simp [Job.setStatus_status]
  · have h' : req = false := Bool.eq_false_iff.mpr h
    simp only [h']
    simp [Job.setStatus_status]

/-- The status of a job mutated by the approve endpoint. -/
theorem approveEffect_status (now : Nat) (approved : Bool)
    (note : Option String) (j : Job) :
    (approveEffect now approved note j).status =
      if approved then .approved else .rejected := by
  unfold approveEffect
  by_cases h : approved = true
  · rw [if_pos h, if_pos h, Job.status_approved_update, Job.setStatus_status]
  · rw [if_neg h, if_neg h, Job.status_result_update, Job.setStatus_status]

/-- The scheduling invariant holds initially. -/
theorem schedInv_init : SchedInv ⟨[], []⟩ := by
  constructor
  · exact List.nodup_nil
  · intro id hin
    exact absurd hin (List.not_mem_nil id)

/-- Every daemon transition preserves the scheduling invariant. -/
theorem schedInv_step {s s' : ApiState} (hinv : SchedInv s)
    (hstep : ApiStep s s') : SchedInv s' := by
  obtain ⟨hnd, hmem⟩ := hinv
  cases hstep with
  | readOnly => exact ⟨hnd, hmem⟩
  | approveNotPending id s j hj hnp => exact ⟨hnd, hmem⟩
  | submit now id command userId ctx modelName cost req s hfresh =>
    have hid_not : id ∉ s.sched := by
      intro hin
      obtain ⟨j, hlj, _⟩ := hmem id hin
      rw [hfresh] at hlj
      exact Option.noConfusion hlj
    unfold submitEffect
    by_cases hreq : req = true
    · refine ⟨by simpa [hreq] using hnd, ?_⟩
      intro id' hin'
      rw [if_neg (by simp [hreq])] at hin'
      obtain ⟨j', hlj', hst'⟩ := hmem id' hin'
      have hne : id ≠ id' := by
        intro he
        rw [← he, hfresh] at hlj'
        exact Option.noConfusion hlj'
      exact ⟨j', by rw [lookupA_setA, if_neg hne]; exact hlj', hst'⟩
    · have hreq' : req = false := Bool.eq_false_iff.mpr hreq
      refine ⟨?_, ?_⟩
      · rw [if_pos (by simp [hreq'])]
        exact List.nodup_cons.mpr ⟨hid_not, hnd⟩
      · intro id' hin'
        rw [if_pos (by simp [hreq'])] at hin'
        rcases List.mem_cons.mp hin' with he | hold
        · subst he
          refine ⟨submitJob now id' command userId ctx modelName cost req,
            by rw [lookupA_setA, if_pos rfl], ?_⟩
          rw [submitJob_status, hreq']
          rfl
        · obtain ⟨j', hlj', hst'⟩ := hmem id' hold
          have hne : id ≠ id' := by
            intro he
            rw [← he, hfresh] at hlj'
            exact Option.noConfusion hlj'
          exact ⟨j', by rw [lookupA_setA, if_neg hne]; exact hlj', hst'⟩
  | approve now id approved note s j hj hp =>
    have hid_not : id ∉ s.sched := by
      intro hin
      obtain ⟨j2, hlj, hst⟩ := hmem id hin
      rw [hj] at hlj
      cases hlj
      rw [hp] at hst
      exact JobStatus.noConfusion hst
    constructor
    · by_cases ha : approved = true
      · rw [if_pos ha]
        exact List.nodup_cons.mpr ⟨hid_not, hnd⟩
      · rw [if_neg ha]
        exact hnd
    · intro id' hin'
      by_cases ha : approved = true
      · rw [if_pos ha] at hin'
        rcases List.mem_cons.mp hin' with he | hold
        · subst he
          refine ⟨approveEffect now approved note j,
            by rw [lookupA_setA, if_pos rfl], ?_⟩
          rw [approveEffect_status, if_pos ha]
        · have hne : id ≠ id' := fun he => hid_not (he ▸ hold)
          obtain ⟨j', hlj', hst'⟩ := hmem id' hold
          exact ⟨j', by rw [lookupA_setA, if_neg hne]; exact hlj', hst'⟩
      · rw [if_neg ha] at hin'
        have hne : id ≠ id' := fun he => hid_not (he ▸ hin')
        obtain ⟨j', hlj', hst'⟩ := hmem id' hin'
        exact ⟨j', by rw [lookupA_setA, if_neg hne]; exact hlj', hst'⟩
  | runExecution now run runPy vcfg scfg llm id s j hs hj =>
    constructor
    · exact hnd.erase id
    · intro id' hin'
      have h2 := (hnd.mem_erase_iff).mp hin'
      have hne : id ≠ id' := fun he => h2.1 he.symm
      obtain ⟨j', hlj', hst'⟩ := hmem id' h2.2
      exact ⟨j', by rw [lookupA_setA, if_neg hne]; exact hlj', hst'⟩

/-- Every reachable daemon state satisfies the scheduling invariant. -/
theorem apiReachable_schedInv {s : ApiState} (h : ApiReachable s) :
    SchedInv s := by
  induction h with
  | init => exact schedInv_init
  | step hr hst ih => exact schedInv_step ih hst

/-- C3: once a job has entered a terminal state (Completed, Failed or
Rejected) in any reachable daemon state, no subsequent transition —
submission, approval, a queued background execution, or a read-only
endpoint — changes that job's stored value in any field. -/
theorem C3_terminal_jobs_frozen {s s' : ApiState} (hreach : ApiReachable s)
    (id : String) (j : Job) (hj : lookupA s.jobs id = some j)
    (hterm : j.status.isTerminal = true) (hstep : ApiStep s s') :
    lookupA s'.jobs id = some j := by
  have hinv := apiReachable_schedInv hreach
  cases hstep with
  | readOnly => exact hj
  | approveNotPending id2 s j2 hj2 hnp => exact hj
  | submit now id2 command userId ctx modelName cost req s hfresh =>
    have hne : id2 ≠ id := by
      intro he
      rw [he, hj] at hfresh
      exact Option.noConfusion hfresh
    show lookupA (setA id2 _ s.jobs) id = some j
    rw [lookupA_setA, if_neg hne]
    exact hj
  | approve now id2 approved note s j2 hj2 hp =>
    have hne : id2 ≠ id := by
      intro he
      rw [he, hj] at hj2
      cases hj2
      rw [hp] at hterm
      exact Bool.noConfusion hterm
    show lookupA (setA id2 _ s.jobs) id = some j
    rw [lookupA_setA, if_neg hne]
    exact hj
  | runExecution now run runPy vcfg scfg llm id2 s j2 hs hj2 =>
    have hne : id2 ≠ id := by
      intro he
      obtain ⟨j3, hlj, hst⟩ := hinv.2 id2 hs
      rw [he, hj] at hlj
      cases hlj
      rw [hst] at hterm
      exact Bool.noConfusion hterm
    show lookupA (setA id2 _ s.jobs) id = some j
    rw [lookupA_setA, if_neg hne]
    exact hj

/-- Subprocess oracle for the C3 witness (instant success). -/
def c3Run : String → ProcBehavior := fun _ => ⟨0, "", "", 0⟩

/-- Validator configuration for the C3 witness. -/
def c3Vcfg : ValidatorCfg := ⟨defaultAllowedCommands, defaultBlockedCommands⟩

/-- Sandbox configuration for the C3 witness. -/
def c3Scfg : SandboxCfg := {}

/-- Initial daemon state. -/
def c3s0 : ApiState := ⟨[], []⟩

/-- State after auto-approved submission of job j1. -/
def c3s1 : ApiState := submitEffect 1 "j1" "ls" "u" [] "m" 0 false c3s0

/-- The submitted job value. -/
def c3jv : Job := submitJob 1 "j1" "ls" "u" [] "m" 0 false

/-- The job after its background execution completes. -/
def c3jterm : Job :=
  executeCommandJob 2 c3Run c3Run c3Vcfg c3Scfg (.ok ⟨[], 0⟩) c3jv

/-- State after the queued execution of j1 has run. -/
def c3s2 : ApiState := ⟨setA "j1" c3jterm c3s1.jobs, c3s1.sched.erase "j1"⟩

/-- C3 witnessed on a concrete trace: submit an auto-approved job, run
its queued execution to Completed, then submit another job; the
terminal job's value is untouched. -/
theorem C3_witness :
    lookupA c3s2.jobs "j1" = some c3jterm ∧
    c3jterm.status.isTerminal = true ∧
    lookupA (submitEffect 3 "j2" "pwd" "u" [] "m" 0 false c3s2).jobs "j1" =
      some c3jterm := by
  refine ⟨by decide, by decide, ?_⟩
  exact C3_terminal_jobs_frozen
    (ApiReachable.step
      (ApiReachable.step ApiReachable.init
        (ApiStep.submit 1 "j1" "ls" "u" [] "m" 0 false c3s0 (by rfl)))
      (ApiStep.runExecution 2 c3Run c3Run c3Vcfg c3Scfg (.ok ⟨[], 0⟩) "j1"
        c3s1 c3jv (by decide) (by rfl)))
    "j1" c3jterm (by decide) (by decide)
    (ApiStep.submit 3 "j2" "pwd" "u" [] "m" 0 false c3s2 (by decide))

end DevOS
